import Mathlib

/-!
Verification of the event-driven pool accounting engine of the
balancer-subgraph-v2 repository, as a shallow embedding in Lean 4.

Raw on-chain integer amounts (`BigInt`) are embedded as `ℤ`; exact
arbitrary-precision decimal amounts (`BigDecimal`) are embedded as `ℚ`
(every division performed by the code is by a power of ten, hence exact);
addresses, pool identifiers and entity ids are embedded as `String`.
The graph-node entity store is embedded as a record of partial maps, one
per entity kind, and each event handler is a function from a store (plus
the event) to a store, together with the synthetic transfer events it
dispatches to the share-transfer handler and the diagnostics it logs.
Handlers that can `throw` return `Except String`.
-/

namespace BalancerSubgraph

/-- An EVM address or entity id (hex string). -/
abbrev Addr := String

/-! ### Decimal utility layer (src/mappings/helpers/misc.ts) -/

/-- Truncation of a rational toward zero to an integer: the rounding mode of
`BigDecimal.truncate(0)` and of the decimal-to-integer conversion used by
`scaleUp`. -/
def ratTrunc (q : ℚ) : ℤ :=
  if 0 ≤ q then ⌊q⌋ else ⌈q⌉

/-- `tokenToDecimal(amount, decimals)`: divides the raw integer amount by
`10^decimals` (exact division in arbitrary-precision decimals). -/
def tokenToDecimal (amount : ℤ) (decimals : ℕ) : ℚ :=
  (amount : ℚ) / (10 : ℚ) ^ decimals

/-- `scaleDown(num, decimals)`: `num.divDecimal(10^decimals)`, the same exact
division as `tokenToDecimal`. -/
def scaleDown (num : ℤ) (decimals : ℕ) : ℚ :=
  (num : ℚ) / (10 : ℚ) ^ decimals

/-- `BigDecimal.truncate(decimals)`: truncates a decimal toward zero to
`decimals` fractional digits. -/
def bdTruncate (q : ℚ) (decimals : ℕ) : ℚ :=
  (ratTrunc (q * (10 : ℚ) ^ decimals) : ℚ) / (10 : ℚ) ^ decimals

/-- `scaleUp(num, decimals)`: truncates `num` to `decimals` fractional digits,
multiplies by `10^decimals` and reads the result back as an integer
(`BigInt.fromString` of an integer-valued decimal). -/
def scaleUp (num : ℚ) (decimals : ℕ) : ℤ :=
  ratTrunc (bdTruncate num decimals * (10 : ℚ) ^ decimals)

/-! ### Entities (src/types/schema, fields the mappings read and write) -/

/-- The `Token` entity. -/
structure Token where
  address : Addr
  name : String
  symbol : String
  decimals : ℕ
  totalBalanceNotional : ℚ
  totalSwapCount : ℤ
  latestFXPrice : Option ℚ
  fxOracleDecimals : Option ℕ
deriving DecidableEq

/-- The `Pool` entity. -/
structure Pool where
  id : String
  address : Addr
  poolType : String
  tokensList : List Addr
  totalShares : ℚ
  swapsCount : ℤ
  holdersCount : ℤ
  amp : Option ℤ
  lastPostJoinExitInvariant : Option ℚ
  lastJoinExitAmp : Option ℤ
deriving DecidableEq

/-- The `PoolToken` entity: one token's position inside one pool. -/
structure PoolToken where
  poolId : String
  address : Addr
  symbol : String
  decimals : ℕ
  balance : ℚ
  cashBalance : ℚ
  managedBalance : ℚ
  priceRate : ℚ
deriving DecidableEq

/-- The `PoolShare` entity: one liquidity provider's share balance. -/
structure PoolShare where
  userAddress : Addr
  poolId : String
  balance : ℚ
deriving DecidableEq

/-- The `JoinExit` entity. The `amounts` array is allocated with the length of
the event's `deltas` array and filled positionally, so unassigned slots are
represented by `none`. -/
structure JoinExit where
  type : String
  amounts : List (Option ℚ)
  pool : String
  user : Addr
  sender : Addr
  timestamp : ℕ
  block : ℕ
  tx : String
deriving DecidableEq

/-- The `Swap` entity. -/
structure Swap where
  tokenIn : Addr
  tokenInSym : String
  tokenAmountIn : ℚ
  tokenOut : Addr
  tokenOutSym : String
  tokenAmountOut : ℚ
  caller : Addr
  userAddress : Addr
  poolId : String
  timestamp : ℕ
  tx : String
  block : ℕ
deriving DecidableEq

/-- The `PoolSnapshot` entity: a daily rollup of one pool's state. The
`amounts` array is allocated with the length of the pool's `tokensList` and
filled positionally, so slots skipped for a missing `PoolToken` stay `none`. -/
structure PoolSnapshot where
  pool : String
  amounts : List (Option ℚ)
  totalShares : ℚ
  swapsCount : ℤ
  holdersCount : ℤ
  timestamp : ℕ
deriving DecidableEq

/-- The `FXOracle` entity. `divisor` is stored by the schema as a string and
parsed with `BigInt.fromString`; it is embedded here by its parsed value. -/
structure FXOracle where
  tokens : List Addr
  decimals : Option ℕ
  divisor : Option ℤ
deriving DecidableEq

/-- The `Balancer` singleton entity (id `'2'`); the handlers load it with a
non-null assertion, so it is embedded as an always-present field. -/
structure Balancer where
  totalSwapCount : ℤ
deriving DecidableEq

/-- A (possibly synthetic) ERC20 `Transfer` event, as dispatched by the
handlers to the share-transfer handler `handleTransfer` of the pool
controller. -/
structure TransferEv where
  token : Addr
  fromAddr : Addr
  toAddr : Addr
  value : ℤ
deriving DecidableEq

/-! ### The entity store

The graph-node key-value entity store. `PoolToken`, `PoolShare`, `Swap`,
`JoinExit` and `PoolSnapshot` ids are concatenations of their components
(`poolId-token`, `poolAddress-lp`, `tx+logIndex`, `poolId-day`); they are
embedded as the corresponding pairs. -/

structure Store where
  pools : String → Option Pool
  poolTokens : String × Addr → Option PoolToken
  tokens : Addr → Option Token
  poolShares : Addr × Addr → Option PoolShare
  users : Addr → Bool
  joinExits : String × ℕ → Option JoinExit
  swaps : String × ℕ → Option Swap
  snapshots : String × ℕ → Option PoolSnapshot
  oracles : Addr → Option FXOracle
  balancer : Balancer

def savePool (s : Store) (id : String) (p : Pool) : Store :=
  { s with pools := fun k => if k = id then some p else s.pools k }

def savePoolToken (s : Store) (poolId : String) (a : Addr) (pt : PoolToken) : Store :=
  { s with poolTokens := fun k => if k = (poolId, a) then some pt else s.poolTokens k }

def saveToken (s : Store) (a : Addr) (t : Token) : Store :=
  { s with tokens := fun k => if k = a then some t else s.tokens k }

def savePoolShare (s : Store) (key : Addr × Addr) (ps : PoolShare) : Store :=
  { s with poolShares := fun k => if k = key then some ps else s.poolShares k }

def saveJoinExit (s : Store) (key : String × ℕ) (j : JoinExit) : Store :=
  { s with joinExits := fun k => if k = key then some j else s.joinExits k }

def saveSwap (s : Store) (key : String × ℕ) (sw : Swap) : Store :=
  { s with swaps := fun k => if k = key then some sw else s.swaps k }

def saveSnapshot (s : Store) (key : String × ℕ) (sn : PoolSnapshot) : Store :=
  { s with snapshots := fun k => if k = key then some sn else s.snapshots k }

def saveUser (s : Store) (a : Addr) : Store :=
  { s with users := fun k => if k = a then true else s.users k }

def saveBalancer (s : Store) (b : Balancer) : Store :=
  { s with balancer := b }

/-! ### Constants (src/mappings/helpers/constants.ts, not under src/) -/

/-- The Balancer V2 vault (custodial) address. -/
def VAULT_ADDRESS : Addr := "0xba12222222228d8ba445958a75a0704d566bf2c8"

/-- The zero (burn) address. -/
def ZERO_ADDRESS : Addr := "0x0000000000000000000000000000000000000000"

/-- Swap direction tag `SWAP_IN`. -/
def SWAP_IN : ℕ := 0

/-- Swap direction tag `SWAP_OUT`. -/
def SWAP_OUT : ℕ := 1

/-- `AMP_PRECISION` of src/mappings/helpers/stable.ts (not under src/):
the amplification-parameter fixed-point precision. -/
def AMP_PRECISION : ℤ := 1000

/-- Seconds per day, `DAY` of src/mappings/helpers/misc.ts. -/
def DAY : ℕ := 24 * 60 * 60

/-! ### Pool-kind predicates

Modelled from the spec: src/mappings/helpers/pools.ts is not under src/.
The spec's §9 represents pool kind as capability predicates resolved from the
pool-type discriminant, its §4.2 names the virtual-supply (preminted share
token) types as the composable-stable (née StablePhantom) and managed types,
and its glossary defines the remaining kinds. -/

/-- Modelled from the spec: `isComposableStablePool` of helpers/pools.ts —
the pool's type discriminant is the composable-stable type. -/
def isComposableStablePool (p : Pool) : Bool :=
  p.poolType == "ComposableStable"

/-- Modelled from the spec: `isManagedPool` of helpers/pools.ts — the pool's
type discriminant is the managed type. -/
def isManagedPool (p : Pool) : Bool :=
  p.poolType == "Managed"

/-- Modelled from the spec: `hasVirtualSupply` of helpers/pools.ts — the
pool's share token is preminted (StablePhantom, composable-stable and managed
types). -/
def hasVirtualSupply (p : Pool) : Bool :=
  p.poolType == "StablePhantom" || isComposableStablePool p || isManagedPool p

/-- Modelled from the spec: `isStableLikePool` of helpers/pools.ts — the
pool is amplification-parameter based. -/
def isStableLikePool (p : Pool) : Bool :=
  p.poolType == "Stable" || p.poolType == "MetaStable" || p.poolType == "StablePhantom"
    || isComposableStablePool p

/-- Modelled from the spec: `isVariableWeightPool` of helpers/pools.ts — the
pool's weights vary over time. -/
def isVariableWeightPool (p : Pool) : Bool :=
  p.poolType == "LiquidityBootstrapping" || p.poolType == "Investment"

/-- Modelled from the spec: `getPoolAddress` of helpers/pools.ts — a pool id
embeds the pool's address as its first 42 hex characters. -/
def getPoolAddress (poolId : String) : Addr :=
  poolId.take 42

/-! ### External collaborators

Modelled from the spec: the contract-metadata provider (failed reads already
replaced by their documented defaults), the time-interpolated amplification
factor of helpers/stable.ts, the StableSwap invariant `calculateInvariant` of
helpers/stable.ts (a pure function contract: deterministic in the
amplification coefficient and rate-adjusted balances), and the static
`FX_ASSET_AGGREGATORS` token/aggregator allow-list of helpers/constants.ts —
none of which are under src/. -/

/-- ERC20 metadata as read through the contract-metadata provider, failures
already defaulted. -/
structure TokenMeta where
  name : String
  symbol : String
  decimals : ℕ

/-- The external collaborators the handlers consult. -/
structure Env where
  tokenMeta : Addr → TokenMeta
  ampValue : String → ℕ → Option ℤ
  calculateInvariant : ℤ → List ℤ → ℤ
  fxAssetAggregators : List (Addr × Addr)

/-! ### Entity store accessors (src/mappings/helpers/misc.ts) -/

/-- `loadPoolToken(poolId, tokenAddress)`: load by the id
`poolId-tokenAddress`. -/
def loadPoolToken (s : Store) (poolId : String) (tokenAddress : Addr) : Option PoolToken :=
  s.poolTokens (poolId, tokenAddress)

/-- `createUserEntity(address)`: create a `User` entity if absent. -/
def createUserEntity (s : Store) (address : Addr) : Store :=
  if s.users address then s else saveUser s address

/-- `createToken(tokenAddress)`: create a `Token` entity, populated with the
ERC20 metadata reads (failures already defaulted to empty strings and zero
decimals by the provider). -/
def createToken (env : Env) (s : Store) (tokenAddress : Addr) : Store × Token :=
  let meta := env.tokenMeta tokenAddress
  let token : Token :=
    { address := tokenAddress
      name := meta.name
      symbol := meta.symbol
      decimals := meta.decimals
      totalBalanceNotional := 0
      totalSwapCount := 0
      latestFXPrice := none
      fxOracleDecimals := none }
  (saveToken s tokenAddress token, token)

/-- `getToken(tokenAddress)`: load the `Token` entity, creating it on first
reference. -/
def getToken (env : Env) (s : Store) (tokenAddress : Addr) : Store × Token :=
  match s.tokens tokenAddress with
  | some t => (s, t)
  | none => createToken env s tokenAddress

/-- `createPoolShareEntity(poolId, lpAddress)`: create a zero-balance
`PoolShare` (and the liquidity provider's `User` entity). -/
def createPoolShareEntity (s : Store) (poolId : String) (lpAddress : Addr) : Store × PoolShare :=
  let s := createUserEntity s lpAddress
  let ps : PoolShare := { userAddress := lpAddress, poolId := poolId, balance := 0 }
  (savePoolShare s (getPoolAddress poolId, lpAddress) ps, ps)

/-- `getPoolShare(poolId, lpAddress)`: load the `PoolShare` with id
`poolAddress-lpAddress`, creating it if absent. -/
def getPoolShare (s : Store) (poolId : String) (lpAddress : Addr) : Store × PoolShare :=
  match s.poolShares (getPoolAddress poolId, lpAddress) with
  | some ps => (s, ps)
  | none => createPoolShareEntity s poolId lpAddress

/-- `uptickSwapsForToken(tokenAddress)`: increment the token's overall swap
count. -/
def uptickSwapsForToken (env : Env) (s : Store) (tokenAddress : Addr) : Store :=
  let st := getToken env s tokenAddress
  saveToken st.1 tokenAddress { st.2 with totalSwapCount := st.2.totalSwapCount + 1 }

/-- `updateTokenBalances(tokenAddress, notionalBalance, swapDirection)`:
accumulate the token's running notional balance, signed by direction. -/
def updateTokenBalances (env : Env) (s : Store) (tokenAddress : Addr)
    (notionalBalance : ℚ) (swapDirection : ℕ) : Store :=
  let st := getToken env s tokenAddress
  if swapDirection = SWAP_IN then
    saveToken st.1 tokenAddress
      { st.2 with totalBalanceNotional := st.2.totalBalanceNotional + notionalBalance }
  else if swapDirection = SWAP_OUT then
    saveToken st.1 tokenAddress
      { st.2 with totalBalanceNotional := st.2.totalBalanceNotional - notionalBalance }
  else st.1

/-! ### Snapshot builder (createPoolSnapshot of src/mappings/helpers/misc.ts) -/

/-- The `for` loop of `createPoolSnapshot`: walk `tokensList`, assigning each
position of the preallocated `amounts` array from the token's `PoolToken`
balance and skipping (`continue`) tokens with no `PoolToken` entity. -/
def snapshotAmountsGo (s : Store) (poolId : String) :
    List Addr → ℕ → List (Option ℚ) → List (Option ℚ)
  | [], _, acc => acc
  | a :: rest, i, acc =>
    match loadPoolToken s poolId a with
    | none => snapshotAmountsGo s poolId rest (i + 1) acc
    | some pt => snapshotAmountsGo s poolId rest (i + 1) (acc.set i (some pt.balance))

/-- `createPoolSnapshot(pool, timestamp)`: align the timestamp to the start of
its calendar day and upsert the snapshot keyed by `(poolId, day)`, writing the
current per-token balances and copying `totalShares`, `swapsCount` and
`holdersCount` from the live pool. -/
def createPoolSnapshot (s : Store) (pool : Pool) (timestamp : ℕ) : Store :=
  let dayTimestamp := timestamp - timestamp % DAY
  let poolId := pool.id
  let tokens := pool.tokensList
  let amounts := snapshotAmountsGo s poolId tokens 0 (List.replicate tokens.length none)
  let snapshot : PoolSnapshot :=
    match s.snapshots (poolId, dayTimestamp) with
    | some snap0 =>
      { snap0 with
          pool := poolId
          amounts := amounts
          totalShares := pool.totalShares
          swapsCount := pool.swapsCount
          holdersCount := pool.holdersCount
          timestamp := dayTimestamp }
    | none =>
      { pool := poolId
        amounts := amounts
        totalShares := pool.totalShares
        swapsCount := pool.swapsCount
        holdersCount := pool.holdersCount
        timestamp := dayTimestamp }
  saveSnapshot s (poolId, dayTimestamp) snapshot

/-- `updatePoolLiquidity(poolId, block, timestamp)` of the pricing module:
resolve the pool (returning unchanged if unknown) and refresh its daily
snapshot. -/
def updatePoolLiquidity (s : Store) (poolId : String) (timestamp : ℕ) : Store :=
  match s.pools poolId with
  | none => s
  | some pool => createPoolSnapshot s pool timestamp

/-! ### Events (src/types/Vault/Vault) -/

/-- The `PoolBalanceChanged` event. -/
structure PoolBalanceChangedEv where
  poolId : String
  liquidityProvider : Addr
  deltas : List ℤ
  protocolFeeAmounts : List ℤ
  blockTimestamp : ℕ
  blockNumber : ℕ
  logIndex : ℕ
  txHash : String

/-- The `PoolBalanceManaged` event. -/
structure PoolBalanceManagedEv where
  poolId : String
  token : Addr
  cashDelta : ℤ
  managedDelta : ℤ

/-- The `Swap` event. -/
structure SwapEv where
  poolId : String
  tokenIn : Addr
  tokenOut : Addr
  amountIn : ℤ
  amountOut : ℤ
  txFrom : Addr
  txHash : String
  logIndex : ℕ
  blockTimestamp : ℕ
  blockNumber : ℕ

/-- The `AnswerUpdated` oracle event (`event.address` is the aggregator). -/
structure AnswerUpdatedEv where
  address : Addr
  current : ℤ

/-- What a handler produces besides the updated store: the synthetic transfer
events it dispatches to the share-transfer handler (the pool controller is an
external collaborator here, so the dispatch itself is the observable), and the
diagnostics it logs. -/
structure HResult where
  store : Store
  transfers : List TransferEv
  logs : List String

/-! ### Deposits and withdrawals (handleBalanceChange and friends) -/

/-- First loop of `handlePoolJoined` / `handlePoolExited`: build the JoinExit
`amounts` array (preallocated with the length of `deltas`), throwing if any
token of `tokensList` has no `PoolToken` entity. `signed` is `1` for a join
and `-1` for an exit (the exit scales `amounts[i].neg()`). -/
def joinExitAmountsGo (s : Store) (poolId : String) (deltas : List ℤ) (signed : ℤ) :
    List Addr → ℕ → List (Option ℚ) → Except String (List (Option ℚ))
  | [], _, acc => .ok acc
  | a :: rest, i, acc =>
    match loadPoolToken s poolId a with
    | none => .error "poolToken not found"
    | some pt =>
      joinExitAmountsGo s poolId deltas signed rest (i + 1)
        (acc.set i (some (scaleDown (signed * deltas.getD i 0) pt.decimals)))

/-- Second loop of `handlePoolJoined` / `handlePoolExited`: apply the
fee-netted per-token amount (`deltas[i] - protocolFeeAmounts[i]`, negated for
an exit) to each `PoolToken.balance` and mirror it into the token's
`totalBalanceNotional`, throwing if any `PoolToken` is missing. -/
def joinExitBalancesGo (env : Env) (poolId : String)
    (deltas protocolFeeAmounts : List ℤ) (signed : ℤ) :
    List Addr → ℕ → Store → Except String Store
  | [], _, s => .ok s
  | a :: rest, i, s =>
    match loadPoolToken s poolId a with
    | none => .error "poolToken not found"
    | some pt =>
      let amount := signed * (deltas.getD i 0 - protocolFeeAmounts.getD i 0)
      let tokenAmount := tokenToDecimal amount pt.decimals
      let s := savePoolToken s poolId a { pt with balance := pt.balance + signed * tokenAmount }
      let st := getToken env s a
      let s := saveToken st.1 a
        { st.2 with totalBalanceNotional := st.2.totalBalanceNotional + signed * tokenAmount }
      joinExitBalancesGo env poolId deltas protocolFeeAmounts signed rest (i + 1) s

/-- Inner loop of the premint scan. -/
def premintScanGo (amounts : List ℤ) (poolAddress : Addr) :
    List Addr → ℕ → ℤ → ℤ
  | [], _, acc => acc
  | a :: rest, i, acc =>
    premintScanGo amounts poolAddress rest (i + 1)
      (if a = poolAddress then amounts.getD i 0 else acc)

/-- The premint scan of `handlePoolJoined`: walk `tokensList` and remember the
delta at the position holding the pool's own address (the last such position,
as in the source's loop; `0` when the address does not appear). -/
def premintScan (tokenAddresses : List Addr) (amounts : List ℤ) (poolAddress : Addr) : ℤ :=
  premintScanGo amounts poolAddress tokenAddresses 0 0

/-- `handlePoolJoined(event)`. -/
def handlePoolJoined (env : Env) (s : Store) (ev : PoolBalanceChangedEv) :
    Except String HResult :=
  match s.pools ev.poolId with
  | none => .ok ⟨s, [], ["Pool not found in handlePoolJoined: " ++ ev.poolId]⟩
  | some pool =>
    let tokenAddresses := pool.tokensList
    match joinExitAmountsGo s ev.poolId ev.deltas 1 tokenAddresses 0
        (List.replicate ev.deltas.length none) with
    | .error e => .error e
    | .ok joinAmounts =>
      let join : JoinExit :=
        { type := "Join"
          amounts := joinAmounts
          pool := ev.poolId
          user := ev.liquidityProvider
          sender := ev.liquidityProvider
          timestamp := ev.blockTimestamp
          block := ev.blockNumber
          tx := ev.txHash }
      let s := saveJoinExit s (ev.txHash, ev.logIndex) join
      match joinExitBalancesGo env ev.poolId ev.deltas ev.protocolFeeAmounts 1
          tokenAddresses 0 s with
      | .error e => .error e
      | .ok s =>
        if pool.poolType == "StablePhantom" || isComposableStablePool pool
            || isManagedPool pool then
          let preMintedBpt := premintScan tokenAddresses ev.deltas pool.address
          let scaledPreMintedBpt := scaleDown preMintedBpt 18
          let pool := { pool with totalShares := pool.totalShares - scaledPreMintedBpt }
          let transfers := [⟨pool.address, VAULT_ADDRESS, ZERO_ADDRESS, preMintedBpt⟩]
          let s := savePool s ev.poolId pool
          .ok ⟨updatePoolLiquidity s ev.poolId ev.blockTimestamp, transfers, []⟩
        else
          let s := savePool s ev.poolId pool
          .ok ⟨updatePoolLiquidity s ev.poolId ev.blockTimestamp, [], []⟩

/-- `handlePoolExited(event)`. -/
def handlePoolExited (env : Env) (s : Store) (ev : PoolBalanceChangedEv) :
    Except String HResult :=
  match s.pools ev.poolId with
  | none => .ok ⟨s, [], ["Pool not found in handlePoolExited: " ++ ev.poolId]⟩
  | some pool =>
    let tokenAddresses := pool.tokensList
    match joinExitAmountsGo s ev.poolId ev.deltas (-1) tokenAddresses 0
        (List.replicate ev.deltas.length none) with
    | .error e => .error e
    | .ok exitAmounts =>
      let exit : JoinExit :=
        { type := "Exit"
          amounts := exitAmounts
          pool := ev.poolId
          user := ev.liquidityProvider
          sender := ev.liquidityProvider
          timestamp := ev.blockTimestamp
          block := ev.blockNumber
          tx := ev.txHash }
      let s := saveJoinExit s (ev.txHash, ev.logIndex) exit
      match joinExitBalancesGo env ev.poolId ev.deltas ev.protocolFeeAmounts (-1)
          tokenAddresses 0 s with
      | .error e => .error e
      | .ok s => .ok ⟨updatePoolLiquidity s ev.poolId ev.blockTimestamp, [], []⟩

/-- `handleBalanceChange(event)`: dispatch on the sign of the delta sum;
zero-length delta arrays are a no-op. -/
def handleBalanceChange (env : Env) (s : Store) (ev : PoolBalanceChangedEv) :
    Except String HResult :=
  if ev.deltas.length = 0 then .ok ⟨s, [], []⟩
  else if ev.deltas.foldl (· + ·) 0 > 0 then handlePoolJoined env s ev
  else handlePoolExited env s ev

/-! ### Investments (handleBalanceManage) -/

/-- `handleBalanceManage(event)`: skip (with a diagnostic) when the pool is
unknown, throw when its `PoolToken` is missing, otherwise apply the cash and
managed deltas. -/
def handleBalanceManage (env : Env) (s : Store) (ev : PoolBalanceManagedEv) :
    Except String HResult :=
  match s.pools ev.poolId with
  | none => .ok ⟨s, [], ["Pool not found in handleBalanceManage: " ++ ev.poolId]⟩
  | some _ =>
    match loadPoolToken s ev.poolId ev.token with
    | none => .error "poolToken not found"
    | some poolToken =>
      let cashDeltaAmount := tokenToDecimal ev.cashDelta poolToken.decimals
      let managedDeltaAmount := tokenToDecimal ev.managedDelta poolToken.decimals
      let deltaAmount := cashDeltaAmount + managedDeltaAmount
      let s := savePoolToken s ev.poolId ev.token
        { poolToken with
            balance := poolToken.balance + deltaAmount
            cashBalance := poolToken.cashBalance + cashDeltaAmount
            managedBalance := poolToken.managedBalance + managedDeltaAmount }
      let st := getToken env s ev.token
      let s := saveToken st.1 ev.token
        { st.2 with totalBalanceNotional := st.2.totalBalanceNotional + deltaAmount }
      .ok ⟨s, [], []⟩

/-! ### Swaps (handleSwapEvent) -/

/-- Modelled from the spec: `updatePoolWeights` of helpers/weighted.ts (not
under src/) refreshes the pool's per-token weights — state this embedding does
not track — and touches nothing else, so it is the identity on the tracked
store. -/
def updatePoolWeights (s : Store) (_poolId : String) : Store := s

/-- Modelled from the spec: `updateAmpFactor` of helpers/stable.ts (not under
src/) refreshes the pool's amplification factor from the external
time-interpolation provider and saves the pool; it touches no other tracked
state. -/
def updateAmpFactor (env : Env) (s : Store) (pool : Pool) (timestamp : ℕ) :
    Store × Pool :=
  let pool := { pool with amp := env.ampValue pool.id timestamp }
  (savePool s pool.id pool, pool)

/-- The share-burn half of the virtual-supply adjustment of
`handleSwapEvent`: a swap leg in the pool's own share token is a share burn
(`tokenIn`) or mint (`tokenOut`), mirrored into `totalShares` (in memory,
saved later) and into the vault's `PoolShare` balance (saved at once). -/
def virtualSupplyBurn (s : Store) (pool : Pool) (ev : SwapEv) : Store × Pool :=
  if ev.tokenIn = pool.address then
    let scaledAmount := tokenToDecimal ev.amountIn 18
    let pool := { pool with totalShares := pool.totalShares - scaledAmount }
    let sv := getPoolShare s ev.poolId VAULT_ADDRESS
    let s := savePoolShare sv.1 (getPoolAddress ev.poolId, VAULT_ADDRESS)
      { sv.2 with balance := sv.2.balance - scaledAmount }
    (s, pool)
  else (s, pool)

/-- The share-mint half of the virtual-supply adjustment. -/
def virtualSupplyMint (s : Store) (pool : Pool) (ev : SwapEv) : Store × Pool :=
  if ev.tokenOut = pool.address then
    let scaledAmount := tokenToDecimal ev.amountOut 18
    let pool := { pool with totalShares := pool.totalShares + scaledAmount }
    let sv := getPoolShare s ev.poolId VAULT_ADDRESS
    let s := savePoolShare sv.1 (getPoolAddress ev.poolId, VAULT_ADDRESS)
      { sv.2 with balance := sv.2.balance + scaledAmount }
    (s, pool)
  else (s, pool)

/-- The virtual-supply adjustment of `handleSwapEvent` (burn half then mint
half). -/
def virtualSupplyAdjust (s : Store) (pool : Pool) (ev : SwapEv) : Store × Pool :=
  if hasVirtualSupply pool then
    let sp := virtualSupplyBurn s pool ev
    virtualSupplyMint sp.1 sp.2 ev
  else (s, pool)

/-- The balance collection of the composable-stable invariant refresh: all
non-share-token balances, each rate-adjusted and scaled up to 18 decimals,
throwing on a missing `PoolToken`. -/
def invariantBalances (s : Store) (pool : Pool) : List Addr → Except String (List ℤ)
  | [] => .ok []
  | a :: rest =>
    if a = pool.address then invariantBalances s pool rest
    else
      match loadPoolToken s pool.id a with
      | none => .error "poolToken not found"
      | some poolToken =>
        let balance := scaleUp (poolToken.balance * poolToken.priceRate) 18
        match invariantBalances s pool rest with
        | .error e => .error e
        | .ok balances => .ok (balance :: balances)

/-- The composable-stable invariant refresh of `handleSwapEvent`: when a
join/exit-style swap (one leg is the pool's own share token) hits a
composable-stable pool, recompute the StableSwap invariant over the
rate-adjusted non-share balances and snapshot the amplification used. -/
def joinExitSwapInvariantRefresh (env : Env) (s : Store) (pool : Pool) (ev : SwapEv) :
    Except String Pool :=
  if (pool.address == ev.tokenIn || pool.address == ev.tokenOut)
      && isComposableStablePool pool then
    match invariantBalances s pool pool.tokensList with
    | .error e => .error e
    | .ok balances =>
      match pool.amp with
      | some ampValue =>
        let amp := ampValue * AMP_PRECISION
        let invariantInt := env.calculateInvariant amp balances
        let invariant := scaleDown invariantInt 18
        .ok { pool with
                lastPostJoinExitInvariant := some invariant
                lastJoinExitAmp := pool.amp }
      | none => .ok pool
  else .ok pool

/-- The weight / amplification refresh step of `handleSwapEvent`: pools with
time-varying weights refresh their weights, amplification-based pools refresh
their amplification factor. -/
def weightAmpRefresh (env : Env) (s : Store) (pool : Pool) (ev : SwapEv) : Store × Pool :=
  if isVariableWeightPool pool then (updatePoolWeights s ev.poolId, pool)
  else if isStableLikePool pool then updateAmpFactor env s pool ev.blockTimestamp
  else (s, pool)

/-- The `Swap` entity recorded by `handleSwapEvent`. -/
def swapRecordOf (ev : SwapEv) (poolTokenIn poolTokenOut : PoolToken) : Swap :=
  { tokenIn := ev.tokenIn
    tokenInSym := poolTokenIn.symbol
    tokenAmountIn := scaleDown ev.amountIn poolTokenIn.decimals
    tokenOut := ev.tokenOut
    tokenOutSym := poolTokenOut.symbol
    tokenAmountOut := scaleDown ev.amountOut poolTokenOut.decimals
    caller := ev.txFrom
    userAddress := ev.txFrom
    poolId := ev.poolId
    timestamp := ev.blockTimestamp
    tx := ev.txHash
    block := ev.blockNumber }

/-- The tail of `handleSwapEvent` after the invariant refresh: record the
`Swap` entity, bump the pool, protocol and per-token swap counters, update the
running token notionals, and — unless one transacted amount is zero — refresh
the liquidity snapshot. -/
def swapFinalize (env : Env) (s : Store) (ev : SwapEv) (pool : Pool)
    (poolTokenIn poolTokenOut : PoolToken) : Store :=
  let tokenAmountIn := scaleDown ev.amountIn poolTokenIn.decimals
  let tokenAmountOut := scaleDown ev.amountOut poolTokenOut.decimals
  let s := saveSwap s (ev.txHash, ev.logIndex) (swapRecordOf ev poolTokenIn poolTokenOut)
  let s := savePool s ev.poolId { pool with swapsCount := pool.swapsCount + 1 }
  let s := saveBalancer s ⟨s.balancer.totalSwapCount + 1⟩
  let s := uptickSwapsForToken env s ev.tokenIn
  let s := uptickSwapsForToken env s ev.tokenOut
  let s := updateTokenBalances env s ev.tokenIn tokenAmountIn SWAP_IN
  let s := updateTokenBalances env s ev.tokenOut tokenAmountOut SWAP_OUT
  if tokenAmountOut = 0 ∨ tokenAmountIn = 0 then s
  else updatePoolLiquidity s ev.poolId ev.blockTimestamp

/-- `handleSwapEvent(event)`. -/
def handleSwapEvent (env : Env) (s : Store) (ev : SwapEv) : Except String HResult :=
  let s := createUserEntity s ev.txFrom
  match s.pools ev.poolId with
  | none => .ok ⟨s, [], ["Pool not found in handleSwapEvent: " ++ ev.poolId]⟩
  | some pool =>
    let sp1 := weightAmpRefresh env s pool ev
    let sp2 := virtualSupplyAdjust sp1.1 sp1.2 ev
    let s := sp2.1
    let pool := sp2.2
    match loadPoolToken s ev.poolId ev.tokenIn, loadPoolToken s ev.poolId ev.tokenOut with
    | some poolTokenIn, some poolTokenOut =>
      let tokenAmountIn := scaleDown ev.amountIn poolTokenIn.decimals
      let tokenAmountOut := scaleDown ev.amountOut poolTokenOut.decimals
      let s := savePoolToken s ev.poolId ev.tokenIn
        { poolTokenIn with balance := poolTokenIn.balance + tokenAmountIn }
      let s := savePoolToken s ev.poolId ev.tokenOut
        { poolTokenOut with balance := poolTokenOut.balance - tokenAmountOut }
      match joinExitSwapInvariantRefresh env s pool ev with
      | .error e => .error e
      | .ok pool => .ok ⟨swapFinalize env s ev pool poolTokenIn poolTokenOut, [], []⟩
    | _, _ =>
      .ok ⟨s, [],
        ["PoolToken not found in handleSwapEvent: (tokenIn: " ++ ev.tokenIn
          ++ "), (tokenOut: " ++ ev.tokenOut ++ ")"]⟩

/-! ### Pricing and oracle normalizer (handleAnswerUpdated) -/

/-- The address of the designated precious-metal token (VNXAU), whose oracle
answer is converted from USD per troy ounce to USD per gram. -/
def XAU_TOKEN_ADDRESS : Addr := "0xc8bb8eda94931ca2f20ef43ea7dbd58e68400400"

/-- The set of token addresses resolved for an aggregator: the static
`FX_ASSET_AGGREGATORS` allow-list entries for this aggregator, unioned with
the `FXOracle` entity's registered tokens (deduplicated against the former). -/
def resolveFxTokens (env : Env) (oracle : Option FXOracle) (aggregatorAddress : Addr) :
    List Addr :=
  let fromStatic := env.fxAssetAggregators.foldl
    (fun acc p => if p.2 = aggregatorAddress then acc ++ [p.1] else acc) []
  match oracle with
  | some o => o.tokens.foldl (fun acc t => if t ∈ acc then acc else acc ++ [t]) fromStatic
  | none => fromStatic

/-- The loop body of `handleAnswerUpdated` for one resolved token address:
skip (with a diagnostic) tokens with no `Token` entity, default the oracle
decimals to 8, and set `latestFXPrice` by the unit-normalization rule selected
by token identity (precious-metal constant divisor) or oracle metadata
(declared divisor and nonzero decimals), falling back to a direct 8-decimal
conversion. -/
def fxUpdateStep (oracle : Option FXOracle) (answer : ℤ) (s : Store)
    (tokenAddress : Addr) : Store × List String :=
  match s.tokens tokenAddress with
  | none => (s, ["Token with address " ++ tokenAddress ++ " not found"])
  | some token =>
    let token :=
      if token.fxOracleDecimals = none ∨ token.fxOracleDecimals = some 0 then
        { token with fxOracleDecimals := some 8 }
      else token
    let token :=
      if tokenAddress = XAU_TOKEN_ADDRESS then
        let pricePerGram := Int.tdiv (answer * 100000000) 3110347680
        { token with latestFXPrice := some (scaleDown pricePerGram 8) }
      else
        match oracle with
        | some o =>
          match o.divisor, o.decimals with
          | some divisor, some oracleDecimals =>
            if oracleDecimals ≠ 0 then
              let updatedAnswer := Int.tdiv (answer * (10 : ℤ) ^ oracleDecimals) divisor
              { token with latestFXPrice := some (scaleDown updatedAnswer 8) }
            else { token with latestFXPrice := some (scaleDown answer 8) }
          | _, _ => { token with latestFXPrice := some (scaleDown answer 8) }
        | none => { token with latestFXPrice := some (scaleDown answer 8) }
    (saveToken s tokenAddress token, [])

/-- `handleAnswerUpdated(event)`: resolve the tokens consuming this
aggregator (logging when no `FXOracle` entity exists) and update each one's
`latestFXPrice`. -/
def handleAnswerUpdated (env : Env) (s : Store) (ev : AnswerUpdatedEv) :
    Store × List String :=
  let oracle := s.oracles ev.address
  let oracleLogs := match oracle with
    | some _ => []
    | none => ["Oracle not found: " ++ ev.address]
  let tokenAddressesToUpdate := resolveFxTokens env oracle ev.address
  tokenAddressesToUpdate.foldl
    (fun acc a =>
      let sl := fxUpdateStep oracle ev.current acc.1 a
      (sl.1, acc.2 ++ sl.2))
    (s, oracleLogs)

/-- The vault's tracked share balance for a pool, reading an absent
`PoolShare` as zero (the handlers' `ZERO_BD` fallback). -/
def vaultShareBalance (s : Store) (poolId : String) : ℚ :=
  match s.poolShares (getPoolAddress poolId, VAULT_ADDRESS) with
  | some ps => ps.balance
  | none => 0

/-! ### Concrete instances used by witnesses and counterexamples -/

/-- The store with no entities. -/
def emptyStore : Store :=
  { pools := fun _ => none
    poolTokens := fun _ => none
    tokens := fun _ => none
    poolShares := fun _ => none
    users := fun _ => false
    joinExits := fun _ => none
    swaps := fun _ => none
    snapshots := fun _ => none
    oracles := fun _ => none
    balancer := ⟨0⟩ }

/-- A concrete environment: metadata reads default, no amplification data,
the zero invariant function, an empty aggregator allow-list. -/
def env0 : Env :=
  { tokenMeta := fun _ => ⟨"", "", 18⟩
    ampValue := fun _ _ => none
    calculateInvariant := fun _ _ => 0
    fxAssetAggregators := [] }

/-- A freshly created `PoolToken` with the given decimals (all balances zero,
unit price rate), as `createPoolTokenEntity` produces. -/
def freshPoolToken (poolId : String) (a : Addr) (sym : String) (decimals : ℕ) : PoolToken :=
  { poolId := poolId
    address := a
    symbol := sym
    decimals := decimals
    balance := 0
    cashBalance := 0
    managedBalance := 0
    priceRate := 1 }

/-- A freshly created `Token` with the given decimals. -/
def freshToken (a : Addr) (sym : String) (decimals : ℕ) : Token :=
  { address := a
    name := sym
    symbol := sym
    decimals := decimals
    totalBalanceNotional := 0
    totalSwapCount := 0
    latestFXPrice := none
    fxOracleDecimals := none }

/-- A pool of the given type over the given token list. -/
def mkPool (id : String) (a : Addr) (ty : String) (tl : List Addr) : Pool :=
  { id := id
    address := a
    poolType := ty
    tokensList := tl
    totalShares := 0
    swapsCount := 0
    holdersCount := 0
    amp := none
    lastPostJoinExitInvariant := none
    lastJoinExitAmp := none }

/-- Concrete pool for the C10 witness: two listed tokens, only the first
with a `PoolToken` entity. -/
def p10 : Pool := mkPool "p" "0xp" "Weighted" ["0xa", "0xb"]

/-- Concrete store for the C10 witness. -/
def s10 : Store :=
  savePool (savePoolToken emptyStore "p" "0xa" (freshPoolToken "p" "0xa" "A" 6)) "p" p10

/-- Concrete join event for the C10 witness. -/
def ev10 : PoolBalanceChangedEv :=
  { poolId := "p"
    liquidityProvider := "0xu"
    deltas := [1, 2]
    protocolFeeAmounts := [0, 0]
    blockTimestamp := 0
    blockNumber := 0
    logIndex := 0
    txHash := "0xt" }

/-- A `PoolShare` balance read from the store, with the handlers' `ZERO_BD`
fallback for an absent entity. -/
def poolShareBalanceAt (s : Store) (key : Addr × Addr) : ℚ :=
  match s.poolShares key with
  | some ps => ps.balance
  | none => 0

/-- Concrete pool for the C3 artifacts: one listed token `0xa` with zero
decimals. -/
def p3 : Pool := mkPool "p3" "0xp3" "Weighted" ["0xa"]

/-- Concrete store for the C3 counterexample: pool `p3` with a fresh
`PoolToken` and `Token`. -/
def s3 : Store :=
  saveToken
    (savePool (savePoolToken emptyStore "p3" "0xa" (freshPoolToken "p3" "0xa" "A" 0)) "p3" p3)
    "0xa" (freshToken "0xa" "A" 0)

/-- Concrete join event for the C3 counterexample. -/
def ev3join : PoolBalanceChangedEv :=
  { poolId := "p3"
    liquidityProvider := "0xu"
    deltas := [1]
    protocolFeeAmounts := [0]
    blockTimestamp := 0
    blockNumber := 0
    logIndex := 0
    txHash := "0xt3" }

/-- Concrete balance-manage event for the C3 artifacts. -/
def ev3manage : PoolBalanceManagedEv :=
  { poolId := "p3", token := "0xa", cashDelta := 1, managedDelta := 0 }

/-- Concrete reconciled `PoolToken` for the C3 witness. -/
def pt3w : PoolToken :=
  { freshPoolToken "p3" "0xa" "A" 0 with balance := 5, cashBalance := 2, managedBalance := 3 }

/-- Concrete store for the C3 witness. -/
def s3w : Store :=
  saveToken (savePool (savePoolToken emptyStore "p3" "0xa" pt3w) "p3" p3)
    "0xa" (freshToken "0xa" "A" 0)

/-- Concrete composable-stable pool for the C1 witness: its own address
`0xbpt` is listed among its tokens. -/
def p1c : Pool := mkPool "p1c" "0xbpt" "ComposableStable" ["0xbpt", "0xa1"]

/-- Concrete store for the C1 witness. -/
def s1c : Store :=
  savePool
    (saveToken
      (saveToken
        (savePoolToken
          (savePoolToken emptyStore "p1c" "0xbpt" (freshPoolToken "p1c" "0xbpt" "BPT" 18))
          "p1c" "0xa1" (freshPoolToken "p1c" "0xa1" "T1" 6))
        "0xbpt" (freshToken "0xbpt" "BPT" 18))
      "0xa1" (freshToken "0xa1" "T1" 6))
    "p1c" p1c

/-- Concrete join event for the C1 witness: the delta at the share-token index
is the preminted amount (5 shares at 18 decimals). -/
def ev1c : PoolBalanceChangedEv :=
  { poolId := "p1c"
    liquidityProvider := "0xu"
    deltas := [5000000000000000000, 1000000]
    protocolFeeAmounts := [0, 0]
    blockTimestamp := 0
    blockNumber := 0
    logIndex := 0
    txHash := "0xt1" }

/-- Concrete pool for the C2 scenario: tokens A (6 decimals) and
B (18 decimals). -/
def p2c : Pool := mkPool "p2" "0xq" "Weighted" ["0xA", "0xB"]

/-- Concrete store for the C2 scenario. -/
def s2c : Store :=
  savePool
    (saveToken
      (saveToken
        (savePoolToken
          (savePoolToken emptyStore "p2" "0xA" (freshPoolToken "p2" "0xA" "A" 6))
          "p2" "0xB" (freshPoolToken "p2" "0xB" "B" 18))
        "0xA" (freshToken "0xA" "A" 6))
      "0xB" (freshToken "0xB" "B" 18))
    "p2" p2c

/-- Concrete join event for the C2 scenario: deltas
`[1_000000, 2_000000000000000000]`, zero fees. -/
def ev2c : PoolBalanceChangedEv :=
  { poolId := "p2"
    liquidityProvider := "0xu"
    deltas := [1000000, 2000000000000000000]
    protocolFeeAmounts := [0, 0]
    blockTimestamp := 0
    blockNumber := 0
    logIndex := 0
    txHash := "0xt2" }

/-- Concrete weighted pool for the C9 artifacts. -/
def p9 : Pool := mkPool "p9" "0xp9" "Weighted" ["0xa9", "0xb9"]

/-- Concrete store for the C9 artifacts: pool `p9` with both leg `PoolToken`s
and `Token`s present. -/
def s9 : Store :=
  savePool
    (saveToken
      (saveToken
        (savePoolToken
          (savePoolToken emptyStore "p9" "0xa9" (freshPoolToken "p9" "0xa9" "A" 6))
          "p9" "0xb9" (freshPoolToken "p9" "0xb9" "B" 18))
        "0xa9" (freshToken "0xa9" "A" 6))
      "0xb9" (freshToken "0xb9" "B" 18))
    "p9" p9

/-- Concrete swap with a zero raw output amount for the C9 artifacts. -/
def ev9 : SwapEv :=
  { poolId := "p9"
    tokenIn := "0xa9"
    tokenOut := "0xb9"
    amountIn := 1000000
    amountOut := 0
    txFrom := "0xu9"
    txHash := "0xt9"
    logIndex := 0
    blockTimestamp := 100000
    blockNumber := 1 }

/-- Concrete phantom-supply pool for the C5 witness: its own address
`0xbpt5` is listed among its tokens. -/
def p5 : Pool := mkPool "p5" "0xbpt5" "StablePhantom" ["0xa5", "0xbpt5"]

/-- Concrete store for the C5 witness. -/
def s5 : Store :=
  savePool
    (saveToken
      (saveToken
        (savePoolToken
          (savePoolToken emptyStore "p5" "0xa5" (freshPoolToken "p5" "0xa5" "A" 6))
          "p5" "0xbpt5" (freshPoolToken "p5" "0xbpt5" "BPT" 18))
        "0xa5" (freshToken "0xa5" "A" 6))
      "0xbpt5" (freshToken "0xbpt5" "BPT" 18))
    "p5" p5

/-- Concrete share-mint swap for the C5 witness (`tokenOut` is the pool's own
share token). -/
def ev5m : SwapEv :=
  { poolId := "p5"
    tokenIn := "0xa5"
    tokenOut := "0xbpt5"
    amountIn := 1000000
    amountOut := 2000000000000000000
    txFrom := "0xu5"
    txHash := "0xt5a"
    logIndex := 0
    blockTimestamp := 0
    blockNumber := 0 }

/-- Concrete share-burn swap for the C5 witness: the same raw share amount
flows back in as `tokenIn`. -/
def ev5b : SwapEv :=
  { poolId := "p5"
    tokenIn := "0xbpt5"
    tokenOut := "0xa5"
    amountIn := 2000000000000000000
    amountOut := 500000
    txFrom := "0xu5"
    txHash := "0xt5b"
    logIndex := 1
    blockTimestamp := 0
    blockNumber := 0 }

/-- Concrete pool for the C4 artifacts. -/
def p4 : Pool := mkPool "p4" "0xp4" "Weighted" ["0xa4"]

/-- Concrete store for the C4 artifacts: pool `p4` exists but has no
`PoolToken` entities. -/
def s4 : Store := savePool emptyStore "p4" p4

/-- Concrete balance-manage event for the C4 artifacts, referencing the
missing `PoolToken`. -/
def ev4m : PoolBalanceManagedEv :=
  { poolId := "p4", token := "0xa4", cashDelta := 1, managedDelta := 0 }

/-- Concrete swap for the C4 artifacts, referencing a pool that does not
exist in `emptyStore`. -/
def ev4s : SwapEv :=
  { poolId := "p4"
    tokenIn := "0xa4"
    tokenOut := "0xb4"
    amountIn := 1
    amountOut := 1
    txFrom := "0xu4"
    txHash := "0xt4"
    logIndex := 0
    blockTimestamp := 0
    blockNumber := 0 }

/-- Concrete oracle for the C8 counterexample: a recorded divisor together
with a recorded — but zero — decimals value. -/
def oracle8 : FXOracle :=
  { tokens := ["0xf8"], decimals := some 0, divisor := some 2 }

/-- Concrete store for the C8 counterexample: one tracked token. -/
def s8 : Store := saveToken emptyStore "0xf8" (freshToken "0xf8" "F8" 18)

/-- Concrete oracle for the C8 scenario: `decimals = 10`, no divisor. -/
def oracle8s : FXOracle :=
  { tokens := ["0xf8t"], decimals := some 10, divisor := none }

/-- Concrete store for the C8 scenario: the tracked token and its `FXOracle`
entity registered under the aggregator address `0xagg8`. -/
def s8s : Store :=
  { saveToken emptyStore "0xf8t" (freshToken "0xf8t" "F8T" 18) with
      oracles := fun k => if k = "0xagg8" then some oracle8s else none }

/-- Concrete answer-update event for the C8 scenario. -/
def ev8 : AnswerUpdatedEv := { address := "0xagg8", current := 123456789 }

/-! ## Theorems -/

/-! ### List helper lemmas -/

theorem getD_set_self {α : Type} (l : List α) (i : ℕ) (x d : α) (h : i < l.length) :
    (l.set i x).getD i d = x := by
  simp [List.getD, List.getElem?_set, h]

theorem getD_set_other {α : Type} (l : List α) {i j : ℕ} (x d : α) (h : i ≠ j) :
    (l.set i x).getD j d = l.getD j d := by
  simp [List.getD, List.getElem?_set, h]

theorem getD_replicate_none {α : Type} (n k : ℕ) :
    (List.replicate n (none : Option α)).getD k none = none := by
  simp only [List.getD]
  cases h : (List.replicate n (none : Option α)).get? k with
  | none => rfl
  | some x =>
    have hx : x ∈ List.replicate n (none : Option α) := List.get?_mem h
    rw [List.eq_of_mem_replicate hx]
    rfl

/-! ### Snapshot builder lemmas -/

theorem snapshotAmountsGo_getD_lt (s : Store) (poolId : String) (l : List Addr)
    (i k : ℕ) (acc : List (Option ℚ)) (hk : k < i) :
    (snapshotAmountsGo s poolId l i acc).getD k none = acc.getD k none := by
  induction l generalizing i acc with
  | nil => rfl
  | cons a rest ih =>
    unfold snapshotAmountsGo
    cases loadPoolToken s poolId a with
    | none => exact ih (i + 1) acc (Nat.lt_succ_of_lt hk)
    | some pt =>
      rw [ih (i + 1) _ (Nat.lt_succ_of_lt hk)]
      exact getD_set_other acc _ _ (Nat.ne_of_gt hk)

theorem snapshotAmountsGo_getD (s : Store) (poolId : String) (l : List Addr)
    (i j : ℕ) (acc : List (Option ℚ)) (hj : j < l.length)
    (hacc : acc.length = i + l.length) :
    (snapshotAmountsGo s poolId l i acc).getD (i + j) none =
      match loadPoolToken s poolId (l.getD j "") with
      | some pt => some pt.balance
      | none => acc.getD (i + j) none := by
  induction l generalizing i acc j with
  | nil => exact absurd hj (Nat.not_lt_zero j)
  | cons a rest ih =>
    simp only [List.length_cons] at hacc
    cases j with
    | zero =>
      simp only [List.getD_cons_zero]
      unfold snapshotAmountsGo
      cases hpt : loadPoolToken s poolId a with
      | none =>
        rw [snapshotAmountsGo_getD_lt s poolId rest (i + 1) (i + 0) acc (by omega)]
      | some pt =>
        rw [snapshotAmountsGo_getD_lt s poolId rest (i + 1) (i + 0) _ (by omega)]
        have hilen : i < acc.length := by omega
        have hi0 : i + 0 = i := by omega
        rw [hi0, getD_set_self acc i (some pt.balance) none hilen]
    | succ j2 =>
      have hj2 : j2 < rest.length := by simpa using hj
      simp only [List.getD_cons_succ]
      unfold snapshotAmountsGo
      have hidx : i + (j2 + 1) = (i + 1) + j2 := by omega
      cases hpt : loadPoolToken s poolId a with
      | none =>
        rw [hidx, ih (i + 1) j2 acc hj2 (by omega)]
      | some pt =>
        rw [hidx, ih (i + 1) j2 (acc.set i (some pt.balance)) hj2 (by simp only [List.length_set]; omega)]
        cases hpt2 : loadPoolToken s poolId (rest.getD j2 "") with
        | some pt2 => rfl
        | none => rw [getD_set_other acc _ _ (by omega)]

/-- The snapshot record `createPoolSnapshot` writes for a pool and
timestamp. -/
theorem createPoolSnapshot_saved (s : Store) (pool : Pool) (t : ℕ) :
    (createPoolSnapshot s pool t).snapshots (pool.id, t - t % DAY) =
      some
        { pool := pool.id
          amounts := snapshotAmountsGo s pool.id pool.tokensList 0
            (List.replicate pool.tokensList.length none)
          totalShares := pool.totalShares
          swapsCount := pool.swapsCount
          holdersCount := pool.holdersCount
          timestamp := t - t % DAY } := by
  unfold createPoolSnapshot saveSnapshot
  cases h : s.snapshots (pool.id, t - t % DAY) <;> simp [h]

theorem createPoolSnapshot_other (s : Store) (pool : Pool) (t : ℕ)
    (k : String × ℕ) (hk : k ≠ (pool.id, t - t % DAY)) :
    (createPoolSnapshot s pool t).snapshots k = s.snapshots k := by
  unfold createPoolSnapshot saveSnapshot
  cases h : s.snapshots (pool.id, t - t % DAY) <;> simp [h, hk]

theorem createPoolSnapshot_pools (s : Store) (pool : Pool) (t : ℕ) :
    (createPoolSnapshot s pool t).pools = s.pools := rfl

theorem createPoolSnapshot_poolTokens (s : Store) (pool : Pool) (t : ℕ) :
    (createPoolSnapshot s pool t).poolTokens = s.poolTokens := rfl

theorem snapshotAmountsGo_congr (s1 s2 : Store) (h : s1.poolTokens = s2.poolTokens)
    (poolId : String) (l : List Addr) (i : ℕ) (acc : List (Option ℚ)) :
    snapshotAmountsGo s1 poolId l i acc = snapshotAmountsGo s2 poolId l i acc := by
  induction l generalizing i acc with
  | nil => rfl
  | cons a rest ih =>
    unfold snapshotAmountsGo loadPoolToken
    rw [h]
    cases s2.poolTokens (poolId, a) <;> exact ih _ _

theorem DAY_is_86400 : DAY = 86400 := rfl

/-- **C6.** For every pool and timestamp `t`, the snapshot refresh computes
`day = t - (t mod 86400)` and upserts the single `PoolSnapshot` keyed by
`(poolId, day)`, overwriting its `amounts` with the pool's current per-token
balances and copying `totalShares`, `swapsCount`, `holdersCount` from the
live `Pool`; two refreshes within the same calendar day leave exactly one
snapshot, the one reflecting only the second call (last write wins). -/
theorem c6_daily_snapshot_upsert (s : Store) (p1 p2 : Pool) (t1 t2 : ℕ)
    (hid : p1.id = p2.id)
    (hday : t1 - t1 % 86400 = t2 - t2 % 86400) :
    (∃ snap, (createPoolSnapshot s p2 t2).snapshots (p2.id, t2 - t2 % 86400) = some snap
      ∧ snap.totalShares = p2.totalShares
      ∧ snap.swapsCount = p2.swapsCount
      ∧ snap.holdersCount = p2.holdersCount
      ∧ snap.timestamp = t2 - t2 % 86400
      ∧ (∀ j, j < p2.tokensList.length → ∀ pt,
          loadPoolToken s p2.id (p2.tokensList.getD j "") = some pt →
          snap.amounts.getD j none = some pt.balance))
    ∧ (∀ k, k ≠ (p2.id, t2 - t2 % 86400) →
        (createPoolSnapshot s p2 t2).snapshots k = s.snapshots k)
    ∧ (∀ k, (createPoolSnapshot (createPoolSnapshot s p1 t1) p2 t2).snapshots k
          = (createPoolSnapshot s p2 t2).snapshots k) := by
  rw [← DAY_is_86400] at hday ⊢
  refine ⟨⟨_, createPoolSnapshot_saved s p2 t2, rfl, rfl, rfl, rfl, ?_⟩, ?_, ?_⟩
  · intro j hj pt hpt
    have h := snapshotAmountsGo_getD s p2.id p2.tokensList 0 j
      (List.replicate p2.tokensList.length none) hj (by simp)
    rw [hpt] at h
    simpa using h
  · intro k hk
    exact createPoolSnapshot_other s p2 t2 k hk
  · intro k
    by_cases hk : k = (p2.id, t2 - t2 % DAY)
    · subst hk
      rw [createPoolSnapshot_saved (createPoolSnapshot s p1 t1) p2 t2,
        createPoolSnapshot_saved s p2 t2,
        snapshotAmountsGo_congr (createPoolSnapshot s p1 t1) s
          (createPoolSnapshot_poolTokens s p1 t1) p2.id]
    · rw [createPoolSnapshot_other (createPoolSnapshot s p1 t1) p2 t2 k hk,
        createPoolSnapshot_other s p2 t2 k hk,
        createPoolSnapshot_other s p1 t1 k (by rw [hid, hday]; exact hk)]

/-- Witness for C6 at a concrete store, pool and pair of same-day
timestamps. -/
theorem c6_daily_snapshot_upsert_witness :
    (mkPool "p" "0xp" "Weighted" ["0xa"]).id
        = { mkPool "p" "0xp" "Weighted" ["0xa"] with totalShares := (7 : ℚ) }.id
    ∧ (100 - 100 % 86400 = 200 - 200 % 86400)
    ∧ (∀ k,
        (createPoolSnapshot
          (createPoolSnapshot emptyStore (mkPool "p" "0xp" "Weighted" ["0xa"]) 100)
          { mkPool "p" "0xp" "Weighted" ["0xa"] with totalShares := (7 : ℚ) } 200).snapshots k
        = (createPoolSnapshot emptyStore
            { mkPool "p" "0xp" "Weighted" ["0xa"] with totalShares := (7 : ℚ) } 200).snapshots k) :=
  ⟨rfl, by decide,
    (c6_daily_snapshot_upsert emptyStore (mkPool "p" "0xp" "Weighted" ["0xa"])
      { mkPool "p" "0xp" "Weighted" ["0xa"] with totalShares := (7 : ℚ) } 100 200 rfl
      (by decide)).2.2⟩

/-! ### Missing `PoolToken` during joins and exits -/

theorem joinExitAmountsGo_missing (s : Store) (poolId : String) (deltas : List ℤ)
    (signed : ℤ) (l : List Addr) (i : ℕ) (acc : List (Option ℚ))
    (h : ∃ a ∈ l, loadPoolToken s poolId a = none) :
    joinExitAmountsGo s poolId deltas signed l i acc = .error "poolToken not found" := by
  induction l generalizing i acc with
  | nil =>
    obtain ⟨a, ha, _⟩ := h
    exact absurd ha (List.not_mem_nil a)
  | cons b rest ih =>
    unfold joinExitAmountsGo
    cases hb : loadPoolToken s poolId b with
    | none => rfl
    | some pt =>
      obtain ⟨a, ha, hnone⟩ := h
      rcases List.mem_cons.mp ha with h1 | h2
      · rw [h1] at hnone
        rw [hb] at hnone
        exact absurd hnone (by simp)
      · exact ih _ _ ⟨a, h2, hnone⟩

theorem handlePoolJoined_missing_token (env : Env) (s : Store)
    (ev : PoolBalanceChangedEv) (pool : Pool)
    (hp : s.pools ev.poolId = some pool)
    (h : ∃ a ∈ pool.tokensList, loadPoolToken s ev.poolId a = none) :
    handlePoolJoined env s ev = .error "poolToken not found" := by
  unfold handlePoolJoined
  simp only [hp,
    joinExitAmountsGo_missing s ev.poolId ev.deltas 1 pool.tokensList 0
      (List.replicate ev.deltas.length none) h]

/-- **C10.** The snapshot builder never fails on a missing `PoolToken`: when a
pool's `tokensList` references a token with no `PoolToken` entity,
`createPoolSnapshot` skips that index (the corresponding `amounts` slot stays
unassigned), still writes the snapshot with the remaining balances, and raises
no error — whereas `handlePoolJoined` on the same store throws
`poolToken not found`. -/
theorem c10_snapshot_tolerates_missing_pooltoken (s : Store) (pool : Pool)
    (t : ℕ) (i : ℕ) (hi : i < pool.tokensList.length)
    (hmiss : loadPoolToken s pool.id (pool.tokensList.getD i "") = none) :
    (∃ snap, (createPoolSnapshot s pool t).snapshots (pool.id, t - t % 86400) = some snap
      ∧ snap.amounts.getD i none = none
      ∧ (∀ j, j < pool.tokensList.length → ∀ pt,
          loadPoolToken s pool.id (pool.tokensList.getD j "") = some pt →
          snap.amounts.getD j none = some pt.balance))
    ∧ (∀ env ev, ev.poolId = pool.id → s.pools pool.id = some pool →
        handlePoolJoined env s ev = .error "poolToken not found") := by
  rw [← DAY_is_86400]
  constructor
  · refine ⟨_, createPoolSnapshot_saved s pool t, ?_, ?_⟩
    · have h := snapshotAmountsGo_getD s pool.id pool.tokensList 0 i
        (List.replicate pool.tokensList.length none) hi (by simp)
      rw [hmiss] at h
      simpa [getD_replicate_none] using h
    · intro j hj pt hpt
      have h := snapshotAmountsGo_getD s pool.id pool.tokensList 0 j
        (List.replicate pool.tokensList.length none) hj (by simp)
      rw [hpt] at h
      simpa using h
  · intro env ev hev hp
    refine handlePoolJoined_missing_token env s ev pool (by rw [hev]; exact hp) ?_
    refine ⟨pool.tokensList.getD i "", ?_, by rw [hev]; exact hmiss⟩
    have hg : pool.tokensList.getD i "" = pool.tokensList.get ⟨i, hi⟩ := by
      simp [List.getD, List.getElem?_eq_getElem hi]
    rw [hg]
    exact List.get_mem _ _ _

/-- Witness for C10 at a concrete pool (two listed tokens, the second without
a `PoolToken` entity). -/
theorem c10_snapshot_tolerates_missing_pooltoken_witness :
    (1 < p10.tokensList.length)
    ∧ loadPoolToken s10 p10.id (p10.tokensList.getD 1 "") = none
    ∧ handlePoolJoined env0 s10 ev10 = .error "poolToken not found" :=
  ⟨by decide, by decide,
    (c10_snapshot_tolerates_missing_pooltoken s10 p10 0 1 (by decide) (by decide)).2
      env0 ev10 rfl (by decide)⟩

/-! ### Frame lemmas for the store accessors -/

@[simp] theorem getToken_fst_pools (env : Env) (s : Store) (a : Addr) :
    ((getToken env s a).1).pools = s.pools := by
  unfold getToken createToken saveToken
  cases s.tokens a <;> rfl

@[simp] theorem getToken_fst_poolTokens (env : Env) (s : Store) (a : Addr) :
    ((getToken env s a).1).poolTokens = s.poolTokens := by
  unfold getToken createToken saveToken
  cases s.tokens a <;> rfl

@[simp] theorem getToken_fst_poolShares (env : Env) (s : Store) (a : Addr) :
    ((getToken env s a).1).poolShares = s.poolShares := by
  unfold getToken createToken saveToken
  cases s.tokens a <;> rfl

@[simp] theorem getToken_fst_users (env : Env) (s : Store) (a : Addr) :
    ((getToken env s a).1).users = s.users := by
  unfold getToken createToken saveToken
  cases s.tokens a <;> rfl

@[simp] theorem getToken_fst_joinExits (env : Env) (s : Store) (a : Addr) :
    ((getToken env s a).1).joinExits = s.joinExits := by
  unfold getToken createToken saveToken
  cases s.tokens a <;> rfl

@[simp] theorem getToken_fst_swaps (env : Env) (s : Store) (a : Addr) :
    ((getToken env s a).1).swaps = s.swaps := by
  unfold getToken createToken saveToken
  cases s.tokens a <;> rfl

@[simp] theorem getToken_fst_snapshots (env : Env) (s : Store) (a : Addr) :
    ((getToken env s a).1).snapshots = s.snapshots := by
  unfold getToken createToken saveToken
  cases s.tokens a <;> rfl

@[simp] theorem getToken_fst_balancer (env : Env) (s : Store) (a : Addr) :
    ((getToken env s a).1).balancer = s.balancer := by
  unfold getToken createToken saveToken
  cases s.tokens a <;> rfl

theorem getToken_present (env : Env) (s : Store) (a : Addr) (t : Token)
    (h : s.tokens a = some t) : getToken env s a = (s, t) := by
  unfold getToken
  rw [h]

theorem getToken_fst_tokens_other (env : Env) (s : Store) (a k : Addr) (hk : k ≠ a) :
    ((getToken env s a).1).tokens k = s.tokens k := by
  unfold getToken createToken saveToken
  cases s.tokens a <;> simp [hk]

theorem getToken_fst_tokens_self (env : Env) (s : Store) (a : Addr) :
    ((getToken env s a).1).tokens a = some ((getToken env s a).2) := by
  unfold getToken createToken saveToken
  cases h : s.tokens a <;> simp [h]

theorem getToken_fst_tokens_isSome (env : Env) (s : Store) (a k : Addr)
    (h : (s.tokens k).isSome) : (((getToken env s a).1).tokens k).isSome := by
  by_cases hk : k = a
  · rw [hk, getToken_fst_tokens_self]; rfl
  · rw [getToken_fst_tokens_other env s a k hk]; exact h

@[simp] theorem createUserEntity_pools (s : Store) (a : Addr) :
    (createUserEntity s a).pools = s.pools := by
  unfold createUserEntity saveUser
  split <;> rfl

@[simp] theorem createUserEntity_poolTokens (s : Store) (a : Addr) :
    (createUserEntity s a).poolTokens = s.poolTokens := by
  unfold createUserEntity saveUser
  split <;> rfl

@[simp] theorem createUserEntity_tokens (s : Store) (a : Addr) :
    (createUserEntity s a).tokens = s.tokens := by
  unfold createUserEntity saveUser
  split <;> rfl

@[simp] theorem createUserEntity_poolShares (s : Store) (a : Addr) :
    (createUserEntity s a).poolShares = s.poolShares := by
  unfold createUserEntity saveUser
  split <;> rfl

@[simp] theorem createUserEntity_joinExits (s : Store) (a : Addr) :
    (createUserEntity s a).joinExits = s.joinExits := by
  unfold createUserEntity saveUser
  split <;> rfl

@[simp] theorem createUserEntity_swaps (s : Store) (a : Addr) :
    (createUserEntity s a).swaps = s.swaps := by
  unfold createUserEntity saveUser
  split <;> rfl

@[simp] theorem createUserEntity_snapshots (s : Store) (a : Addr) :
    (createUserEntity s a).snapshots = s.snapshots := by
  unfold createUserEntity saveUser
  split <;> rfl

@[simp] theorem createUserEntity_balancer (s : Store) (a : Addr) :
    (createUserEntity s a).balancer = s.balancer := by
  unfold createUserEntity saveUser
  split <;> rfl

@[simp] theorem getPoolShare_fst_pools (s : Store) (pid : String) (lp : Addr) :
    ((getPoolShare s pid lp).1).pools = s.pools := by
  unfold getPoolShare createPoolShareEntity
  cases s.poolShares (getPoolAddress pid, lp) <;> simp [savePoolShare]

@[simp] theorem getPoolShare_fst_poolTokens (s : Store) (pid : String) (lp : Addr) :
    ((getPoolShare s pid lp).1).poolTokens = s.poolTokens := by
  unfold getPoolShare createPoolShareEntity
  cases s.poolShares (getPoolAddress pid, lp) <;> simp [savePoolShare]

@[simp] theorem getPoolShare_fst_tokens (s : Store) (pid : String) (lp : Addr) :
    ((getPoolShare s pid lp).1).tokens = s.tokens := by
  unfold getPoolShare createPoolShareEntity
  cases s.poolShares (getPoolAddress pid, lp) <;> simp [savePoolShare]

@[simp] theorem getPoolShare_fst_joinExits (s : Store) (pid : String) (lp : Addr) :
    ((getPoolShare s pid lp).1).joinExits = s.joinExits := by
  unfold getPoolShare createPoolShareEntity
  cases s.poolShares (getPoolAddress pid, lp) <;> simp [savePoolShare]

@[simp] theorem getPoolShare_fst_swaps (s : Store) (pid : String) (lp : Addr) :
    ((getPoolShare s pid lp).1).swaps = s.swaps := by
  unfold getPoolShare createPoolShareEntity
  cases s.poolShares (getPoolAddress pid, lp) <;> simp [savePoolShare]

@[simp] theorem getPoolShare_fst_snapshots (s : Store) (pid : String) (lp : Addr) :
    ((getPoolShare s pid lp).1).snapshots = s.snapshots := by
  unfold getPoolShare createPoolShareEntity
  cases s.poolShares (getPoolAddress pid, lp) <;> simp [savePoolShare]

@[simp] theorem getPoolShare_fst_balancer (s : Store) (pid : String) (lp : Addr) :
    ((getPoolShare s pid lp).1).balancer = s.balancer := by
  unfold getPoolShare createPoolShareEntity
  cases s.poolShares (getPoolAddress pid, lp) <;> simp [savePoolShare]

theorem getPoolShare_fst_poolShares (s : Store) (pid : String) (lp : Addr)
    (k : Addr × Addr) :
    ((getPoolShare s pid lp).1).poolShares k =
      if k = (getPoolAddress pid, lp) then some ((getPoolShare s pid lp).2)
      else s.poolShares k := by
  unfold getPoolShare createPoolShareEntity
  cases h : s.poolShares (getPoolAddress pid, lp) with
  | none => simp [savePoolShare]
  | some ps =>
    by_cases hk : k = (getPoolAddress pid, lp)
    · rw [if_pos hk, hk]
      exact h
    · rw [if_neg hk]

theorem getPoolShare_snd_balance (s : Store) (pid : String) (lp : Addr) :
    ((getPoolShare s pid lp).2).balance = poolShareBalanceAt s (getPoolAddress pid, lp) := by
  unfold getPoolShare createPoolShareEntity poolShareBalanceAt
  cases s.poolShares (getPoolAddress pid, lp) <;> rfl

/-! ### Swap component lemmas -/

theorem savePoolShare_balanceAt_self (s : Store) (k : Addr × Addr) (ps : PoolShare) :
    poolShareBalanceAt (savePoolShare s k ps) k = ps.balance := by
  simp [poolShareBalanceAt, savePoolShare]

theorem weightAmpRefresh_spec (env : Env) (s : Store) (pool : Pool) (ev : SwapEv) :
    ∃ amp2, (weightAmpRefresh env s pool ev).2 = { pool with amp := amp2 }
      ∧ (weightAmpRefresh env s pool ev).1.poolTokens = s.poolTokens
      ∧ (weightAmpRefresh env s pool ev).1.tokens = s.tokens
      ∧ (weightAmpRefresh env s pool ev).1.poolShares = s.poolShares
      ∧ (weightAmpRefresh env s pool ev).1.users = s.users
      ∧ (weightAmpRefresh env s pool ev).1.joinExits = s.joinExits
      ∧ (weightAmpRefresh env s pool ev).1.swaps = s.swaps
      ∧ (weightAmpRefresh env s pool ev).1.snapshots = s.snapshots
      ∧ (weightAmpRefresh env s pool ev).1.balancer = s.balancer
      ∧ (∀ k, k ≠ pool.id → (weightAmpRefresh env s pool ev).1.pools k = s.pools k)
      ∧ ((weightAmpRefresh env s pool ev).1.pools pool.id = s.pools pool.id
          ∨ (weightAmpRefresh env s pool ev).1.pools pool.id = some { pool with amp := amp2 }) := by
  unfold weightAmpRefresh updatePoolWeights updateAmpFactor
  by_cases h1 : isVariableWeightPool pool = true
  · rw [if_pos h1]
    exact ⟨pool.amp, rfl, rfl, rfl, rfl, rfl, rfl, rfl, rfl, rfl, fun k _ => rfl, Or.inl rfl⟩
  · rw [if_neg h1]
    by_cases h2 : isStableLikePool pool = true
    · rw [if_pos h2]
      refine ⟨env.ampValue pool.id ev.blockTimestamp, rfl, rfl, rfl, rfl, rfl, rfl, rfl,
        rfl, rfl, ?_, ?_⟩
      · intro k hk
        simp [savePool, hk]
      · right
        simp [savePool]
    · rw [if_neg h2]
      exact ⟨pool.amp, rfl, rfl, rfl, rfl, rfl, rfl, rfl, rfl, rfl, fun k _ => rfl, Or.inl rfl⟩

theorem virtualSupplyBurn_spec (st : Store) (p : Pool) (ev : SwapEv) :
    (virtualSupplyBurn st p ev).2 = { p with
        totalShares := p.totalShares
          - (if ev.tokenIn = p.address then tokenToDecimal ev.amountIn 18 else 0) }
    ∧ (virtualSupplyBurn st p ev).1.pools = st.pools
    ∧ (virtualSupplyBurn st p ev).1.poolTokens = st.poolTokens
    ∧ (virtualSupplyBurn st p ev).1.tokens = st.tokens
    ∧ (virtualSupplyBurn st p ev).1.joinExits = st.joinExits
    ∧ (virtualSupplyBurn st p ev).1.swaps = st.swaps
    ∧ (virtualSupplyBurn st p ev).1.snapshots = st.snapshots
    ∧ (virtualSupplyBurn st p ev).1.balancer = st.balancer
    ∧ poolShareBalanceAt (virtualSupplyBurn st p ev).1 (getPoolAddress ev.poolId, VAULT_ADDRESS)
        = poolShareBalanceAt st (getPoolAddress ev.poolId, VAULT_ADDRESS)
          - (if ev.tokenIn = p.address then tokenToDecimal ev.amountIn 18 else 0)
    ∧ (∀ k, k ≠ (getPoolAddress ev.poolId, VAULT_ADDRESS) →
        (virtualSupplyBurn st p ev).1.poolShares k = st.poolShares k) := by
  unfold virtualSupplyBurn
  by_cases hin : ev.tokenIn = p.address
  · rw [if_pos hin]
    refine ⟨by simp [hin], by simp [savePoolShare], by simp [savePoolShare],
      by simp [savePoolShare], by simp [savePoolShare], by simp [savePoolShare],
      by simp [savePoolShare], by simp [savePoolShare], ?_, ?_⟩
    · rw [savePoolShare_balanceAt_self]
      rw [if_pos hin]
      show (getPoolShare st ev.poolId VAULT_ADDRESS).2.balance - tokenToDecimal ev.amountIn 18
        = poolShareBalanceAt st (getPoolAddress ev.poolId, VAULT_ADDRESS)
          - tokenToDecimal ev.amountIn 18
      rw [getPoolShare_snd_balance]
    · intro k hk
      simp only [savePoolShare]
      rw [if_neg hk, getPoolShare_fst_poolShares]
      rw [if_neg hk]
  · rw [if_neg hin]
    exact ⟨by simp [hin], rfl, rfl, rfl, rfl, rfl, rfl, rfl, by simp [hin], fun k _ => rfl⟩

theorem virtualSupplyMint_spec (st : Store) (p : Pool) (ev : SwapEv) :
    (virtualSupplyMint st p ev).2 = { p with
        totalShares := p.totalShares
          + (if ev.tokenOut = p.address then tokenToDecimal ev.amountOut 18 else 0) }
    ∧ (virtualSupplyMint st p ev).1.pools = st.pools
    ∧ (virtualSupplyMint st p ev).1.poolTokens = st.poolTokens
    ∧ (virtualSupplyMint st p ev).1.tokens = st.tokens
    ∧ (virtualSupplyMint st p ev).1.joinExits = st.joinExits
    ∧ (virtualSupplyMint st p ev).1.swaps = st.swaps
    ∧ (virtualSupplyMint st p ev).1.snapshots = st.snapshots
    ∧ (virtualSupplyMint st p ev).1.balancer = st.balancer
    ∧ poolShareBalanceAt (virtualSupplyMint st p ev).1 (getPoolAddress ev.poolId, VAULT_ADDRESS)
        = poolShareBalanceAt st (getPoolAddress ev.poolId, VAULT_ADDRESS)
          + (if ev.tokenOut = p.address then tokenToDecimal ev.amountOut 18 else 0)
    ∧ (∀ k, k ≠ (getPoolAddress ev.poolId, VAULT_ADDRESS) →
        (virtualSupplyMint st p ev).1.poolShares k = st.poolShares k) := by
  unfold virtualSupplyMint
  by_cases hout : ev.tokenOut = p.address
  · rw [if_pos hout]
    refine ⟨by simp [hout], by simp [savePoolShare], by simp [savePoolShare],
      by simp [savePoolShare], by simp [savePoolShare], by simp [savePoolShare],
      by simp [savePoolShare], by simp [savePoolShare], ?_, ?_⟩
    · rw [savePoolShare_balanceAt_self]
      rw [if_pos hout]
      show (getPoolShare st ev.poolId VAULT_ADDRESS).2.balance + tokenToDecimal ev.amountOut 18
        = poolShareBalanceAt st (getPoolAddress ev.poolId, VAULT_ADDRESS)
          + tokenToDecimal ev.amountOut 18
      rw [getPoolShare_snd_balance]
    · intro k hk
      simp only [savePoolShare]
      rw [if_neg hk, getPoolShare_fst_poolShares]
      rw [if_neg hk]
  · rw [if_neg hout]
    exact ⟨by simp [hout], rfl, rfl, rfl, rfl, rfl, rfl, rfl, by simp [hout], fun k _ => rfl⟩

theorem virtualSupplyAdjust_spec (st : Store) (p : Pool) (ev : SwapEv) :
    (virtualSupplyAdjust st p ev).2 = { p with
        totalShares := p.totalShares
          - (if hasVirtualSupply p = true ∧ ev.tokenIn = p.address then
              tokenToDecimal ev.amountIn 18 else 0)
          + (if hasVirtualSupply p = true ∧ ev.tokenOut = p.address then
              tokenToDecimal ev.amountOut 18 else 0) }
    ∧ (virtualSupplyAdjust st p ev).1.pools = st.pools
    ∧ (virtualSupplyAdjust st p ev).1.poolTokens = st.poolTokens
    ∧ (virtualSupplyAdjust st p ev).1.tokens = st.tokens
    ∧ (virtualSupplyAdjust st p ev).1.joinExits = st.joinExits
    ∧ (virtualSupplyAdjust st p ev).1.swaps = st.swaps
    ∧ (virtualSupplyAdjust st p ev).1.snapshots = st.snapshots
    ∧ (virtualSupplyAdjust st p ev).1.balancer = st.balancer
    ∧ poolShareBalanceAt (virtualSupplyAdjust st p ev).1 (getPoolAddress ev.poolId, VAULT_ADDRESS)
        = poolShareBalanceAt st (getPoolAddress ev.poolId, VAULT_ADDRESS)
          - (if hasVirtualSupply p = true ∧ ev.tokenIn = p.address then
              tokenToDecimal ev.amountIn 18 else 0)
          + (if hasVirtualSupply p = true ∧ ev.tokenOut = p.address then
              tokenToDecimal ev.amountOut 18 else 0)
    ∧ (∀ k, k ≠ (getPoolAddress ev.poolId, VAULT_ADDRESS) →
        (virtualSupplyAdjust st p ev).1.poolShares k = st.poolShares k) := by
  unfold virtualSupplyAdjust
  by_cases hvs : hasVirtualSupply p = true
  · rw [if_pos hvs]
    obtain ⟨hB2, hBp, hBpt, hBt, hBje, hBsw, hBsn, hBb, hBbal, hBother⟩ :=
      virtualSupplyBurn_spec st p ev
    obtain ⟨hM2, hMp, hMpt, hMt, hMje, hMsw, hMsn, hMb, hMbal, hMother⟩ :=
      virtualSupplyMint_spec (virtualSupplyBurn st p ev).1 (virtualSupplyBurn st p ev).2 ev
    constructor
    · rw [hM2, hB2]
      simp [hvs]
    refine ⟨by rw [hMp, hBp], by rw [hMpt, hBpt], by rw [hMt, hBt], by rw [hMje, hBje],
      by rw [hMsw, hBsw], by rw [hMsn, hBsn], by rw [hMb, hBb], ?_, ?_⟩
    · rw [hMbal, hBbal, hB2]
      simp [hvs]
    · intro k hk
      rw [hMother k hk, hBother k hk]
  · rw [if_neg hvs]
    refine ⟨?_, rfl, rfl, rfl, rfl, rfl, rfl, rfl, ?_, fun k _ => rfl⟩
    · simp [hvs]
    · simp [hvs]

theorem invariantBalances_ok (s : Store) (pool : Pool) (l : List Addr)
    (h : ∀ a ∈ l, a ≠ pool.address → (loadPoolToken s pool.id a).isSome) :
    ∃ bs, invariantBalances s pool l = .ok bs := by
  induction l with
  | nil => exact ⟨[], rfl⟩
  | cons a rest ih =>
    obtain ⟨bs, hbs⟩ := ih (fun a2 ha2 hne => h a2 (List.mem_cons_of_mem a ha2) hne)
    unfold invariantBalances
    by_cases ha : a = pool.address
    · rw [if_pos ha]
      exact ⟨bs, hbs⟩
    · rw [if_neg ha]
      obtain ⟨pt, hpt⟩ := Option.isSome_iff_exists.mp (h a (List.mem_cons_self a rest) ha)
      rw [hpt, hbs]
      exact ⟨_, rfl⟩

theorem joinExitSwapInvariantRefresh_ok (env : Env) (s : Store) (pool : Pool)
    (ev : SwapEv)
    (h : ∀ a ∈ pool.tokensList, a ≠ pool.address → (loadPoolToken s pool.id a).isSome) :
    ∃ pool2, joinExitSwapInvariantRefresh env s pool ev = .ok pool2
      ∧ pool2.id = pool.id ∧ pool2.address = pool.address
      ∧ pool2.poolType = pool.poolType ∧ pool2.tokensList = pool.tokensList
      ∧ pool2.totalShares = pool.totalShares ∧ pool2.swapsCount = pool.swapsCount
      ∧ pool2.holdersCount = pool.holdersCount ∧ pool2.amp = pool.amp := by
  unfold joinExitSwapInvariantRefresh
  by_cases hc : ((pool.address == ev.tokenIn || pool.address == ev.tokenOut)
      && isComposableStablePool pool) = true
  · rw [if_pos hc]
    obtain ⟨bs, hbs⟩ := invariantBalances_ok s pool pool.tokensList h
    rw [hbs]
    cases hamp : pool.amp with
    | none =>
      exact ⟨pool, rfl, rfl, rfl, rfl, rfl, rfl, rfl, rfl, hamp⟩
    | some av =>
      exact ⟨_, rfl, rfl, rfl, rfl, rfl, rfl, rfl, rfl, rfl⟩
  · rw [if_neg hc]
    exact ⟨pool, rfl, rfl, rfl, rfl, rfl, rfl, rfl, rfl, rfl⟩

theorem uptickSwapsForToken_pools (env : Env) (s : Store) (a : Addr) :
    (uptickSwapsForToken env s a).pools = s.pools := by
  simp [uptickSwapsForToken, saveToken]

theorem uptickSwapsForToken_poolTokens (env : Env) (s : Store) (a : Addr) :
    (uptickSwapsForToken env s a).poolTokens = s.poolTokens := by
  simp [uptickSwapsForToken, saveToken]

theorem uptickSwapsForToken_poolShares (env : Env) (s : Store) (a : Addr) :
    (uptickSwapsForToken env s a).poolShares = s.poolShares := by
  simp [uptickSwapsForToken, saveToken]

theorem uptickSwapsForToken_snapshots (env : Env) (s : Store) (a : Addr) :
    (uptickSwapsForToken env s a).snapshots = s.snapshots := by
  simp [uptickSwapsForToken, saveToken]

theorem uptickSwapsForToken_swaps (env : Env) (s : Store) (a : Addr) :
    (uptickSwapsForToken env s a).swaps = s.swaps := by
  simp [uptickSwapsForToken, saveToken]

theorem uptickSwapsForToken_joinExits (env : Env) (s : Store) (a : Addr) :
    (uptickSwapsForToken env s a).joinExits = s.joinExits := by
  simp [uptickSwapsForToken, saveToken]

theorem uptickSwapsForToken_balancer (env : Env) (s : Store) (a : Addr) :
    (uptickSwapsForToken env s a).balancer = s.balancer := by
  simp [uptickSwapsForToken, saveToken]

theorem uptickSwapsForToken_tokens_other (env : Env) (s : Store) (a k : Addr)
    (hk : k ≠ a) : (uptickSwapsForToken env s a).tokens k = s.tokens k := by
  simp only [uptickSwapsForToken, saveToken]
  rw [if_neg hk]
  exact getToken_fst_tokens_other env s a k hk

theorem uptickSwapsForToken_tokens_self (env : Env) (s : Store) (a : Addr)
    (t : Token) (h : s.tokens a = some t) :
    (uptickSwapsForToken env s a).tokens a
      = some { t with totalSwapCount := t.totalSwapCount + 1 } := by
  simp only [uptickSwapsForToken, saveToken]
  rw [getToken_present env s a t h]
  simp

theorem updateTokenBalances_swapIn (env : Env) (s : Store) (a : Addr) (n : ℚ)
    (t : Token) (h : s.tokens a = some t) :
    updateTokenBalances env s a n SWAP_IN
      = saveToken s a { t with totalBalanceNotional := t.totalBalanceNotional + n } := by
  unfold updateTokenBalances
  rw [getToken_present env s a t h]
  simp

theorem updateTokenBalances_swapOut (env : Env) (s : Store) (a : Addr) (n : ℚ)
    (t : Token) (h : s.tokens a = some t) :
    updateTokenBalances env s a n SWAP_OUT
      = saveToken s a { t with totalBalanceNotional := t.totalBalanceNotional - n } := by
  unfold updateTokenBalances
  rw [getToken_present env s a t h]
  simp [SWAP_IN, SWAP_OUT]

theorem hasVirtualSupply_set_amp (p : Pool) (a : Option ℤ) :
    hasVirtualSupply { p with amp := a } = hasVirtualSupply p := rfl

theorem hasVirtualSupply_congr (p q : Pool) (h : p.poolType = q.poolType) :
    hasVirtualSupply p = hasVirtualSupply q := by
  simp [hasVirtualSupply, isComposableStablePool, isManagedPool, h]

theorem vaultShareBalance_eq_balanceAt (s : Store) (poolId : String) :
    vaultShareBalance s poolId = poolShareBalanceAt s (getPoolAddress poolId, VAULT_ADDRESS) := rfl

theorem poolShareBalanceAt_congr (s1 s2 : Store) (k : Addr × Addr)
    (h : s1.poolShares = s2.poolShares) :
    poolShareBalanceAt s1 k = poolShareBalanceAt s2 k := by
  unfold poolShareBalanceAt
  rw [h]

theorem uptickSwapsForToken_present (env : Env) (s : Store) (a : Addr) (t : Token)
    (h : s.tokens a = some t) :
    uptickSwapsForToken env s a
      = saveToken s a { t with totalSwapCount := t.totalSwapCount + 1 } := by
  unfold uptickSwapsForToken
  rw [getToken_present env s a t h]

/-! ### Join and exit effect lemmas -/

theorem getD_mem_of_lt {l : List Addr} {j : ℕ} (hj : j < l.length) :
    l.getD j "" ∈ l := by
  have h : l.getD j "" = l.get ⟨j, hj⟩ := by
    simp [List.getD, List.getElem?_eq_getElem hj]
  rw [h]
  exact List.get_mem _ _ _

theorem joinExitAmountsGo_ok (s : Store) (poolId : String) (deltas : List ℤ)
    (signed : ℤ) (l : List Addr) (i : ℕ) (acc : List (Option ℚ))
    (hall : ∀ a ∈ l, (s.poolTokens (poolId, a)).isSome) :
    ∃ res, joinExitAmountsGo s poolId deltas signed l i acc = .ok res
      ∧ res.length = acc.length
      ∧ (∀ k, k < i → res.getD k none = acc.getD k none)
      ∧ (∀ j, j < l.length → ∀ pt, s.poolTokens (poolId, l.getD j "") = some pt →
          i + j < acc.length →
          res.getD (i + j) none
            = some (scaleDown (signed * deltas.getD (i + j) 0) pt.decimals)) := by
  induction l generalizing i acc with
  | nil =>
    exact ⟨acc, rfl, rfl, fun k _ => rfl, fun j hj => absurd hj (Nat.not_lt_zero j)⟩
  | cons a rest ih =>
    obtain ⟨pt, hpt⟩ := Option.isSome_iff_exists.mp (hall a (List.mem_cons_self a rest))
    obtain ⟨res, hgo, hlen, hlow, heff⟩ :=
      ih (i + 1) (acc.set i (some (scaleDown (signed * deltas.getD i 0) pt.decimals)))
        (fun a2 ha2 => hall a2 (List.mem_cons_of_mem a ha2))
    refine ⟨res, ?_, ?_, ?_, ?_⟩
    · simp only [joinExitAmountsGo, loadPoolToken, hpt]
      exact hgo
    · rw [hlen, List.length_set]
    · intro k hk
      rw [hlow k (by omega), getD_set_other acc _ _ (by omega)]
    · intro j hj pt2 hpt2 hbound
      cases j with
      | zero =>
        simp only [List.getD_cons_zero] at hpt2
        rw [hpt] at hpt2
        have hpteq : pt2 = pt := by
          exact (Option.some.injEq _ _ ▸ hpt2).symm
        have hi0 : i + 0 = i := by omega
        rw [hi0] at hbound ⊢
        rw [hlow i (by omega), getD_set_self acc i _ none hbound, hpteq]
      | succ j2 =>
        have hj2 : j2 < rest.length := by simpa using hj
        have hidx : i + (j2 + 1) = (i + 1) + j2 := by omega
        simp only [List.getD_cons_succ] at hpt2 ⊢
        rw [hidx] at hbound ⊢
        refine heff j2 hj2 pt2 hpt2 ?_
        rw [List.length_set]
        omega

theorem joinExitBalancesGo_spec (env : Env) (poolId : String)
    (deltas fees : List ℤ) (signed : ℤ) (l : List Addr) :
    ∀ (i : ℕ) (s : Store), l.Nodup →
    (∀ a ∈ l, (s.poolTokens (poolId, a)).isSome) →
    ∃ s2, joinExitBalancesGo env poolId deltas fees signed l i s = .ok s2
      ∧ s2.pools = s.pools
      ∧ s2.poolShares = s.poolShares
      ∧ s2.joinExits = s.joinExits
      ∧ s2.swaps = s.swaps
      ∧ s2.snapshots = s.snapshots
      ∧ s2.users = s.users
      ∧ s2.balancer = s.balancer
      ∧ (∀ k, k.2 ∉ l → s2.poolTokens k = s.poolTokens k)
      ∧ (∀ a, a ∉ l → s2.tokens a = s.tokens a)
      ∧ (∀ j, j < l.length → ∀ pt, s.poolTokens (poolId, l.getD j "") = some pt →
          s2.poolTokens (poolId, l.getD j "") = some
            { pt with balance := pt.balance + signed * tokenToDecimal
                                   (signed * (deltas.getD (i + j) 0 - fees.getD (i + j) 0))
                                   pt.decimals })
      ∧ (∀ j, j < l.length → ∀ pt t, s.poolTokens (poolId, l.getD j "") = some pt →
          s.tokens (l.getD j "") = some t →
          s2.tokens (l.getD j "") = some
            { t with totalBalanceNotional := t.totalBalanceNotional + signed * tokenToDecimal
                                               (signed * (deltas.getD (i + j) 0 - fees.getD (i + j) 0))
                                               pt.decimals }) := by
  induction l with
  | nil =>
    intro i s _ _
    exact ⟨s, rfl, rfl, rfl, rfl, rfl, rfl, rfl, rfl, fun k _ => rfl, fun a _ => rfl,
      fun j hj => absurd hj (Nat.not_lt_zero j), fun j hj => absurd hj (Nat.not_lt_zero j)⟩
  | cons a rest ih =>
    intro i s hnodup hall
    obtain ⟨pt, hpt⟩ := Option.isSome_iff_exists.mp (hall a (List.mem_cons_self a rest))
    have hanotin : a ∉ rest := (List.nodup_cons.mp hnodup).1
    obtain ⟨s2, hgo, hP, hPS, hJE, hSW, hSN, hU, hB, hKPT, hKT, hEPT, hET⟩ :=
      ih (i + 1)
        (saveToken
          ((getToken env (savePoolToken s poolId a
            { pt with balance := pt.balance + signed
                * tokenToDecimal (signed * (deltas.getD i 0 - fees.getD i 0)) pt.decimals }) a).1)
          a
          { (getToken env (savePoolToken s poolId a
              { pt with balance := pt.balance + signed
                  * tokenToDecimal (signed * (deltas.getD i 0 - fees.getD i 0)) pt.decimals }) a).2
            with totalBalanceNotional :=
              ((getToken env (savePoolToken s poolId a
                { pt with balance := pt.balance + signed
                    * tokenToDecimal (signed * (deltas.getD i 0 - fees.getD i 0)) pt.decimals }) a).2).totalBalanceNotional
              + signed * tokenToDecimal (signed * (deltas.getD i 0 - fees.getD i 0)) pt.decimals })
        (List.nodup_cons.mp hnodup).2
        (by
          intro a2 ha2
          have hne : (poolId, a2) ≠ (poolId, a) := by
            intro h
            exact hanotin ((Prod.mk.injEq _ _ _ _ ▸ h).2 ▸ ha2)
          simp only [saveToken, getToken_fst_poolTokens, savePoolToken]
          simp only [if_neg hne]
          exact hall a2 (List.mem_cons_of_mem a ha2))
    refine ⟨s2, ?_, ?_, ?_, ?_, ?_, ?_, ?_, ?_, ?_, ?_, ?_, ?_⟩
    · simp only [joinExitBalancesGo, loadPoolToken, hpt]
      exact hgo
    · rw [hP]; simp [saveToken, savePoolToken]
    · rw [hPS]; simp [saveToken, savePoolToken]
    · rw [hJE]; simp [saveToken, savePoolToken]
    · rw [hSW]; simp [saveToken, savePoolToken]
    · rw [hSN]; simp [saveToken, savePoolToken]
    · rw [hU]; simp [saveToken, savePoolToken]
    · rw [hB]; simp [saveToken, savePoolToken]
    · intro k hk
      have hkr : k.2 ∉ rest := fun h => hk (List.mem_cons_of_mem a h)
      have hka : k ≠ (poolId, a) := by
        intro h
        exact hk (h ▸ List.mem_cons_self a rest)
      rw [hKPT k hkr]
      simp only [saveToken, getToken_fst_poolTokens, savePoolToken]
      simp only [if_neg hka]
    · intro a2 ha2
      have har : a2 ∉ rest := fun h => ha2 (List.mem_cons_of_mem a h)
      have hane : a2 ≠ a := fun h => ha2 (h ▸ List.mem_cons_self a rest)
      rw [hKT a2 har]
      simp only [saveToken]
      rw [if_neg hane]
      exact getToken_fst_tokens_other env _ a a2 hane
    · intro j hj pt2 hpt2
      cases j with
      | zero =>
        simp only [List.getD_cons_zero] at hpt2 ⊢
        rw [hpt] at hpt2
        have hpteq : pt2 = pt := (Option.some.injEq _ _ ▸ hpt2).symm
        rw [hpteq, hKPT (poolId, a) hanotin]
        have hi0 : i + 0 = i := by omega
        rw [hi0]
        simp [saveToken, savePoolToken]
      | succ j2 =>
        have hj2 : j2 < rest.length := by simpa using hj
        have helem : rest.getD j2 "" ∈ rest := getD_mem_of_lt hj2
        have hne : ((poolId, rest.getD j2 "") : String × Addr) ≠ (poolId, a) := by
          intro h
          exact hanotin ((Prod.mk.injEq _ _ _ _ ▸ h).2 ▸ helem)
        simp only [List.getD_cons_succ] at hpt2 ⊢
        have hidx : i + (j2 + 1) = (i + 1) + j2 := by omega
        rw [hidx]
        refine hEPT j2 hj2 pt2 ?_
        simp only [saveToken, getToken_fst_poolTokens, savePoolToken]
        rw [if_neg hne]
        exact hpt2
    · intro j hj pt2 t hpt2 ht
      cases j with
      | zero =>
        simp only [List.getD_cons_zero] at hpt2 ht ⊢
        rw [hpt] at hpt2
        have hpteq : pt2 = pt := (Option.some.injEq _ _ ▸ hpt2).symm
        rw [hpteq, hKT a hanotin]
        have hs1tok : (savePoolToken s poolId a
            { pt with balance := pt.balance + signed
                * tokenToDecimal (signed * (deltas.getD i 0 - fees.getD i 0)) pt.decimals }).tokens a
            = some t := ht
        rw [getToken_present env _ a t hs1tok]
        have hi0 : i + 0 = i := by omega
        rw [hi0]
        simp [saveToken]
      | succ j2 =>
        have hj2 : j2 < rest.length := by simpa using hj
        have helem : rest.getD j2 "" ∈ rest := getD_mem_of_lt hj2
        have hne : ((poolId, rest.getD j2 "") : String × Addr) ≠ (poolId, a) := by
          intro h
          exact hanotin ((Prod.mk.injEq _ _ _ _ ▸ h).2 ▸ helem)
        have hane : rest.getD j2 "" ≠ a := fun h => hanotin (h ▸ helem)
        simp only [List.getD_cons_succ] at hpt2 ht ⊢
        have hidx : i + (j2 + 1) = (i + 1) + j2 := by omega
        rw [hidx]
        refine hET j2 hj2 pt2 t ?_ ?_
        · simp only [saveToken, getToken_fst_poolTokens, savePoolToken]
          rw [if_neg hne]
          exact hpt2
        · simp only [saveToken]
          rw [if_neg hane, getToken_fst_tokens_other env _ a _ hane]
          simp only [savePoolToken]
          exact ht

theorem createPoolSnapshot_tokens (s : Store) (pool : Pool) (t : ℕ) :
    (createPoolSnapshot s pool t).tokens = s.tokens := rfl

theorem createPoolSnapshot_joinExits (s : Store) (pool : Pool) (t : ℕ) :
    (createPoolSnapshot s pool t).joinExits = s.joinExits := rfl

theorem createPoolSnapshot_swaps (s : Store) (pool : Pool) (t : ℕ) :
    (createPoolSnapshot s pool t).swaps = s.swaps := rfl

theorem createPoolSnapshot_poolShares (s : Store) (pool : Pool) (t : ℕ) :
    (createPoolSnapshot s pool t).poolShares = s.poolShares := rfl

theorem createPoolSnapshot_users (s : Store) (pool : Pool) (t : ℕ) :
    (createPoolSnapshot s pool t).users = s.users := rfl

theorem createPoolSnapshot_balancer (s : Store) (pool : Pool) (t : ℕ) :
    (createPoolSnapshot s pool t).balancer = s.balancer := rfl

@[simp] theorem updatePoolLiquidity_pools (s : Store) (pid : String) (t : ℕ) :
    (updatePoolLiquidity s pid t).pools = s.pools := by
  unfold updatePoolLiquidity
  cases s.pools pid with
  | none => rfl
  | some pool => exact createPoolSnapshot_pools s pool t

@[simp] theorem updatePoolLiquidity_poolTokens (s : Store) (pid : String) (t : ℕ) :
    (updatePoolLiquidity s pid t).poolTokens = s.poolTokens := by
  unfold updatePoolLiquidity
  cases s.pools pid with
  | none => rfl
  | some pool => exact createPoolSnapshot_poolTokens s pool t

@[simp] theorem updatePoolLiquidity_tokens (s : Store) (pid : String) (t : ℕ) :
    (updatePoolLiquidity s pid t).tokens = s.tokens := by
  unfold updatePoolLiquidity
  cases s.pools pid with
  | none => rfl
  | some pool => exact createPoolSnapshot_tokens s pool t

@[simp] theorem updatePoolLiquidity_joinExits (s : Store) (pid : String) (t : ℕ) :
    (updatePoolLiquidity s pid t).joinExits = s.joinExits := by
  unfold updatePoolLiquidity
  cases s.pools pid with
  | none => rfl
  | some pool => exact createPoolSnapshot_joinExits s pool t

@[simp] theorem updatePoolLiquidity_swaps (s : Store) (pid : String) (t : ℕ) :
    (updatePoolLiquidity s pid t).swaps = s.swaps := by
  unfold updatePoolLiquidity
  cases s.pools pid with
  | none => rfl
  | some pool => exact createPoolSnapshot_swaps s pool t

@[simp] theorem updatePoolLiquidity_poolShares (s : Store) (pid : String) (t : ℕ) :
    (updatePoolLiquidity s pid t).poolShares = s.poolShares := by
  unfold updatePoolLiquidity
  cases s.pools pid with
  | none => rfl
  | some pool => exact createPoolSnapshot_poolShares s pool t

@[simp] theorem updatePoolLiquidity_users (s : Store) (pid : String) (t : ℕ) :
    (updatePoolLiquidity s pid t).users = s.users := by
  unfold updatePoolLiquidity
  cases s.pools pid with
  | none => rfl
  | some pool => exact createPoolSnapshot_users s pool t

@[simp] theorem updatePoolLiquidity_balancer (s : Store) (pid : String) (t : ℕ) :
    (updatePoolLiquidity s pid t).balancer = s.balancer := by
  unfold updatePoolLiquidity
  cases s.pools pid with
  | none => rfl
  | some pool => exact createPoolSnapshot_balancer s pool t

theorem updateTokenBalances_pools (env : Env) (s : Store) (a : Addr) (n : ℚ) (d : ℕ) :
    (updateTokenBalances env s a n d).pools = s.pools := by
  unfold updateTokenBalances
  split
  · simp [saveToken]
  · split
    · simp [saveToken]
    · simp

theorem updateTokenBalances_poolTokens (env : Env) (s : Store) (a : Addr) (n : ℚ) (d : ℕ) :
    (updateTokenBalances env s a n d).poolTokens = s.poolTokens := by
  unfold updateTokenBalances
  split
  · simp [saveToken]
  · split
    · simp [saveToken]
    · simp

theorem updateTokenBalances_poolShares (env : Env) (s : Store) (a : Addr) (n : ℚ) (d : ℕ) :
    (updateTokenBalances env s a n d).poolShares = s.poolShares := by
  unfold updateTokenBalances
  split
  · simp [saveToken]
  · split
    · simp [saveToken]
    · simp

theorem updateTokenBalances_swaps (env : Env) (s : Store) (a : Addr) (n : ℚ) (d : ℕ) :
    (updateTokenBalances env s a n d).swaps = s.swaps := by
  unfold updateTokenBalances
  split
  · simp [saveToken]
  · split
    · simp [saveToken]
    · simp

theorem updateTokenBalances_snapshots (env : Env) (s : Store) (a : Addr) (n : ℚ) (d : ℕ) :
    (updateTokenBalances env s a n d).snapshots = s.snapshots := by
  unfold updateTokenBalances
  split
  · simp [saveToken]
  · split
    · simp [saveToken]
    · simp

theorem updateTokenBalances_joinExits (env : Env) (s : Store) (a : Addr) (n : ℚ) (d : ℕ) :
    (updateTokenBalances env s a n d).joinExits = s.joinExits := by
  unfold updateTokenBalances
  split
  · simp [saveToken]
  · split
    · simp [saveToken]
    · simp

theorem updateTokenBalances_balancer (env : Env) (s : Store) (a : Addr) (n : ℚ) (d : ℕ) :
    (updateTokenBalances env s a n d).balancer = s.balancer := by
  unfold updateTokenBalances
  split
  · simp [saveToken]
  · split
    · simp [saveToken]
    · simp

/-- The combined effect of `swapFinalize` on each entity the claims read. -/
theorem swapFinalize_spec (env : Env) (st : Store) (ev : SwapEv) (p : Pool)
    (ptI ptO : PoolToken) (tI tO : Token)
    (hneq : ev.tokenIn ≠ ev.tokenOut)
    (htI : st.tokens ev.tokenIn = some tI)
    (htO : st.tokens ev.tokenOut = some tO) :
    (swapFinalize env st ev p ptI ptO).pools ev.poolId
        = some { p with swapsCount := p.swapsCount + 1 }
    ∧ (∀ k, k ≠ ev.poolId → (swapFinalize env st ev p ptI ptO).pools k = st.pools k)
    ∧ (swapFinalize env st ev p ptI ptO).poolTokens = st.poolTokens
    ∧ (swapFinalize env st ev p ptI ptO).poolShares = st.poolShares
    ∧ (swapFinalize env st ev p ptI ptO).tokens ev.tokenIn
        = some { tI with
            totalSwapCount := tI.totalSwapCount + 1
            totalBalanceNotional := tI.totalBalanceNotional + scaleDown ev.amountIn ptI.decimals }
    ∧ (swapFinalize env st ev p ptI ptO).tokens ev.tokenOut
        = some { tO with
            totalSwapCount := tO.totalSwapCount + 1
            totalBalanceNotional := tO.totalBalanceNotional - scaleDown ev.amountOut ptO.decimals }
    ∧ (∀ a, a ≠ ev.tokenIn → a ≠ ev.tokenOut →
        (swapFinalize env st ev p ptI ptO).tokens a = st.tokens a)
    ∧ (swapFinalize env st ev p ptI ptO).balancer.totalSwapCount
        = st.balancer.totalSwapCount + 1
    ∧ (swapFinalize env st ev p ptI ptO).swaps (ev.txHash, ev.logIndex)
        = some (swapRecordOf ev ptI ptO)
    ∧ ((scaleDown ev.amountOut ptO.decimals = 0 ∨ scaleDown ev.amountIn ptI.decimals = 0) →
        (swapFinalize env st ev p ptI ptO).snapshots = st.snapshots) := by
  unfold swapFinalize
  simp only []
  set SD : Store := savePool (saveSwap st (ev.txHash, ev.logIndex) (swapRecordOf ev ptI ptO))
    ev.poolId { p with swapsCount := p.swapsCount + 1 } with hSDdef
  set SE : Store := saveBalancer SD ⟨SD.balancer.totalSwapCount + 1⟩ with hSEdef
  have hSEtokens : SE.tokens = st.tokens := by
    rw [hSEdef, hSDdef]
    simp [saveBalancer, savePool, saveSwap]
  have h1 : uptickSwapsForToken env SE ev.tokenIn
      = saveToken SE ev.tokenIn { tI with totalSwapCount := tI.totalSwapCount + 1 } :=
    uptickSwapsForToken_present env SE ev.tokenIn tI (by rw [hSEtokens]; exact htI)
  rw [h1]
  have h2tok : (saveToken SE ev.tokenIn
      { tI with totalSwapCount := tI.totalSwapCount + 1 }).tokens ev.tokenOut = some tO := by
    simp only [saveToken]
    rw [if_neg (fun h => hneq h.symm), hSEtokens]
    exact htO
  have h2 : uptickSwapsForToken env
      (saveToken SE ev.tokenIn { tI with totalSwapCount := tI.totalSwapCount + 1 }) ev.tokenOut
      = saveToken (saveToken SE ev.tokenIn { tI with totalSwapCount := tI.totalSwapCount + 1 })
          ev.tokenOut { tO with totalSwapCount := tO.totalSwapCount + 1 } :=
    uptickSwapsForToken_present env _ ev.tokenOut tO h2tok
  rw [h2]
  have h3tok : (saveToken (saveToken SE ev.tokenIn
      { tI with totalSwapCount := tI.totalSwapCount + 1 }) ev.tokenOut
      { tO with totalSwapCount := tO.totalSwapCount + 1 }).tokens ev.tokenIn
      = some { tI with totalSwapCount := tI.totalSwapCount + 1 } := by
    simp only [saveToken]
    rw [if_neg hneq]
    simp
  have h3 : updateTokenBalances env
      (saveToken (saveToken SE ev.tokenIn { tI with totalSwapCount := tI.totalSwapCount + 1 })
        ev.tokenOut { tO with totalSwapCount := tO.totalSwapCount + 1 })
      ev.tokenIn (scaleDown ev.amountIn ptI.decimals) SWAP_IN
      = saveToken
          (saveToken (saveToken SE ev.tokenIn { tI with totalSwapCount := tI.totalSwapCount + 1 })
            ev.tokenOut { tO with totalSwapCount := tO.totalSwapCount + 1 })
          ev.tokenIn
          { tI with
              totalSwapCount := tI.totalSwapCount + 1
              totalBalanceNotional := tI.totalBalanceNotional + scaleDown ev.amountIn ptI.decimals } := by
    rw [updateTokenBalances_swapIn env _ ev.tokenIn (scaleDown ev.amountIn ptI.decimals)
      { tI with totalSwapCount := tI.totalSwapCount + 1 } h3tok]
  rw [h3]
  have h4tok : (saveToken
      (saveToken (saveToken SE ev.tokenIn { tI with totalSwapCount := tI.totalSwapCount + 1 })
        ev.tokenOut { tO with totalSwapCount := tO.totalSwapCount + 1 })
      ev.tokenIn
      { tI with
          totalSwapCount := tI.totalSwapCount + 1
          totalBalanceNotional := tI.totalBalanceNotional + scaleDown ev.amountIn ptI.decimals }).tokens
      ev.tokenOut = some { tO with totalSwapCount := tO.totalSwapCount + 1 } := by
    simp only [saveToken]
    rw [if_neg (fun h => hneq h.symm)]
    simp
  have h4 := updateTokenBalances_swapOut env
    (saveToken
      (saveToken (saveToken SE ev.tokenIn { tI with totalSwapCount := tI.totalSwapCount + 1 })
        ev.tokenOut { tO with totalSwapCount := tO.totalSwapCount + 1 })
      ev.tokenIn
      { tI with
          totalSwapCount := tI.totalSwapCount + 1
          totalBalanceNotional := tI.totalBalanceNotional + scaleDown ev.amountIn ptI.decimals })
    ev.tokenOut (scaleDown ev.amountOut ptO.decimals)
    { tO with totalSwapCount := tO.totalSwapCount + 1 } h4tok
  rw [h4]
  by_cases hz : scaleDown ev.amountOut ptO.decimals = 0 ∨ scaleDown ev.amountIn ptI.decimals = 0
  · rw [if_pos hz]
    refine ⟨?_, ?_, ?_, ?_, ?_, ?_, ?_, ?_, ?_, fun _ => ?_⟩
    · simp [saveToken, saveBalancer, savePool, saveSwap, hSEdef, hSDdef]
    · intro k hk
      simp [saveToken, saveBalancer, savePool, saveSwap, hSEdef, hSDdef, hk]
    · simp [saveToken, saveBalancer, savePool, saveSwap, hSEdef, hSDdef]
    · simp [saveToken, saveBalancer, savePool, saveSwap, hSEdef, hSDdef]
    · simp only [saveToken]
      rw [if_neg hneq]
      simp
    · simp only [saveToken]
      simp
    · intro a hin hout
      simp only [saveToken]
      rw [if_neg hout, if_neg hin, if_neg hout, if_neg hin, hSEtokens]
    · simp [saveToken, saveBalancer, savePool, saveSwap, hSEdef, hSDdef]
    · simp [saveToken, saveBalancer, savePool, saveSwap, hSEdef, hSDdef]
    · simp [saveToken, saveBalancer, savePool, saveSwap, hSEdef, hSDdef]
  · rw [if_neg hz]
    refine ⟨?_, ?_, ?_, ?_, ?_, ?_, ?_, ?_, ?_, fun hzz => absurd hzz hz⟩
    · rw [updatePoolLiquidity_pools]
      simp [saveToken, saveBalancer, savePool, saveSwap, hSEdef, hSDdef]
    · intro k hk
      rw [updatePoolLiquidity_pools]
      simp [saveToken, saveBalancer, savePool, saveSwap, hSEdef, hSDdef, hk]
    · rw [updatePoolLiquidity_poolTokens]
      simp [saveToken, saveBalancer, savePool, saveSwap, hSEdef, hSDdef]
    · rw [updatePoolLiquidity_poolShares]
      simp [saveToken, saveBalancer, savePool, saveSwap, hSEdef, hSDdef]
    · rw [updatePoolLiquidity_tokens]
      simp only [saveToken]
      rw [if_neg hneq]
      simp
    · rw [updatePoolLiquidity_tokens]
      simp only [saveToken]
      simp
    · intro a hin hout
      rw [updatePoolLiquidity_tokens]
      simp only [saveToken]
      rw [if_neg hout, if_neg hin, if_neg hout, if_neg hin, hSEtokens]
    · rw [updatePoolLiquidity_balancer]
      simp [saveToken, saveBalancer, savePool, saveSwap, hSEdef, hSDdef]
    · rw [updatePoolLiquidity_swaps]
      simp [saveToken, saveBalancer, savePool, saveSwap, hSEdef, hSDdef]

/-- The combined effect of a successful `handleSwapEvent` on each entity the
claims read: the leg `PoolToken` balance updates, the `Swap` record, the three
swap counters, the token notionals, the virtual-supply share movements on the
pool's `totalShares` and the vault's `PoolShare`, and the zero-amount snapshot
skip. -/
theorem handleSwapEvent_spec (env : Env) (s : Store) (ev : SwapEv) (pool : Pool)
    (ptI ptO : PoolToken) (tokI tokO : Token)
    (hp : s.pools ev.poolId = some pool)
    (hid : pool.id = ev.poolId)
    (hneq : ev.tokenIn ≠ ev.tokenOut)
    (hptIn : s.poolTokens (ev.poolId, ev.tokenIn) = some ptI)
    (hptOut : s.poolTokens (ev.poolId, ev.tokenOut) = some ptO)
    (htokIn : s.tokens ev.tokenIn = some tokI)
    (htokOut : s.tokens ev.tokenOut = some tokO)
    (hallpt : ∀ a ∈ pool.tokensList, a ≠ pool.address →
        (s.poolTokens (ev.poolId, a)).isSome) :
    ∃ r poolF, handleSwapEvent env s ev = .ok r
      ∧ r.transfers = [] ∧ r.logs = []
      ∧ r.store.pools ev.poolId = some poolF
      ∧ poolF.id = pool.id ∧ poolF.address = pool.address
      ∧ poolF.poolType = pool.poolType ∧ poolF.tokensList = pool.tokensList
      ∧ poolF.holdersCount = pool.holdersCount
      ∧ poolF.swapsCount = pool.swapsCount + 1
      ∧ poolF.totalShares = pool.totalShares
          - (if hasVirtualSupply pool = true ∧ ev.tokenIn = pool.address then
              tokenToDecimal ev.amountIn 18 else 0)
          + (if hasVirtualSupply pool = true ∧ ev.tokenOut = pool.address then
              tokenToDecimal ev.amountOut 18 else 0)
      ∧ vaultShareBalance r.store ev.poolId = vaultShareBalance s ev.poolId
          - (if hasVirtualSupply pool = true ∧ ev.tokenIn = pool.address then
              tokenToDecimal ev.amountIn 18 else 0)
          + (if hasVirtualSupply pool = true ∧ ev.tokenOut = pool.address then
              tokenToDecimal ev.amountOut 18 else 0)
      ∧ r.store.poolTokens (ev.poolId, ev.tokenIn)
          = some { ptI with balance := ptI.balance + scaleDown ev.amountIn ptI.decimals }
      ∧ r.store.poolTokens (ev.poolId, ev.tokenOut)
          = some { ptO with balance := ptO.balance - scaleDown ev.amountOut ptO.decimals }
      ∧ (∀ k, k ≠ (ev.poolId, ev.tokenIn) → k ≠ (ev.poolId, ev.tokenOut) →
          r.store.poolTokens k = s.poolTokens k)
      ∧ r.store.tokens ev.tokenIn
          = some { tokI with
              totalSwapCount := tokI.totalSwapCount + 1
              totalBalanceNotional := tokI.totalBalanceNotional
                + scaleDown ev.amountIn ptI.decimals }
      ∧ r.store.tokens ev.tokenOut
          = some { tokO with
              totalSwapCount := tokO.totalSwapCount + 1
              totalBalanceNotional := tokO.totalBalanceNotional
                - scaleDown ev.amountOut ptO.decimals }
      ∧ (∀ a, a ≠ ev.tokenIn → a ≠ ev.tokenOut → r.store.tokens a = s.tokens a)
      ∧ r.store.balancer.totalSwapCount = s.balancer.totalSwapCount + 1
      ∧ r.store.swaps (ev.txHash, ev.logIndex) = some (swapRecordOf ev ptI ptO)
      ∧ ((scaleDown ev.amountOut ptO.decimals = 0 ∨ scaleDown ev.amountIn ptI.decimals = 0) →
          r.store.snapshots = s.snapshots)
      ∧ (∀ k, k ≠ (getPoolAddress ev.poolId, VAULT_ADDRESS) →
          r.store.poolShares k = s.poolShares k) := by
  obtain ⟨amp2, hsp1_2, hsp1_pt, hsp1_t, hsp1_ps, hsp1_u, hsp1_je, hsp1_sw, hsp1_sn,
    hsp1_b, hsp1_po, hsp1_pid⟩ :=
    weightAmpRefresh_spec env (createUserEntity s ev.txFrom) pool ev
  obtain ⟨hV2, hVp, hVpt, hVt, hVje, hVsw, hVsn, hVb, hVbal, hVother⟩ :=
    virtualSupplyAdjust_spec
      (weightAmpRefresh env (createUserEntity s ev.txFrom) pool ev).1
      (weightAmpRefresh env (createUserEntity s ev.txFrom) pool ev).2 ev
  have hT2id : (virtualSupplyAdjust
      (weightAmpRefresh env (createUserEntity s ev.txFrom) pool ev).1
      (weightAmpRefresh env (createUserEntity s ev.txFrom) pool ev).2 ev).2.id
      = pool.id := by rw [hV2, hsp1_2]
  have hT2addr : (virtualSupplyAdjust
      (weightAmpRefresh env (createUserEntity s ev.txFrom) pool ev).1
      (weightAmpRefresh env (createUserEntity s ev.txFrom) pool ev).2 ev).2.address
      = pool.address := by rw [hV2, hsp1_2]
  have hT2ptype : (virtualSupplyAdjust
      (weightAmpRefresh env (createUserEntity s ev.txFrom) pool ev).1
      (weightAmpRefresh env (createUserEntity s ev.txFrom) pool ev).2 ev).2.poolType
      = pool.poolType := by rw [hV2, hsp1_2]
  have hT2tl : (virtualSupplyAdjust
      (weightAmpRefresh env (createUserEntity s ev.txFrom) pool ev).1
      (weightAmpRefresh env (createUserEntity s ev.txFrom) pool ev).2 ev).2.tokensList
      = pool.tokensList := by rw [hV2, hsp1_2]
  have hT2hc : (virtualSupplyAdjust
      (weightAmpRefresh env (createUserEntity s ev.txFrom) pool ev).1
      (weightAmpRefresh env (createUserEntity s ev.txFrom) pool ev).2 ev).2.holdersCount
      = pool.holdersCount := by rw [hV2, hsp1_2]
  have hT2sc : (virtualSupplyAdjust
      (weightAmpRefresh env (createUserEntity s ev.txFrom) pool ev).1
      (weightAmpRefresh env (createUserEntity s ev.txFrom) pool ev).2 ev).2.swapsCount
      = pool.swapsCount := by rw [hV2, hsp1_2]
  have hT2ts : (virtualSupplyAdjust
      (weightAmpRefresh env (createUserEntity s ev.txFrom) pool ev).1
      (weightAmpRefresh env (createUserEntity s ev.txFrom) pool ev).2 ev).2.totalShares
      = pool.totalShares
        - (if hasVirtualSupply pool = true ∧ ev.tokenIn = pool.address then
            tokenToDecimal ev.amountIn 18 else 0)
        + (if hasVirtualSupply pool = true ∧ ev.tokenOut = pool.address then
            tokenToDecimal ev.amountOut 18 else 0) := by
    rw [hV2, hsp1_2]
    simp [hasVirtualSupply, isComposableStablePool, isManagedPool]
  have hT2ptk : (virtualSupplyAdjust
      (weightAmpRefresh env (createUserEntity s ev.txFrom) pool ev).1
      (weightAmpRefresh env (createUserEntity s ev.txFrom) pool ev).2 ev).1.poolTokens
      = s.poolTokens := by rw [hVpt, hsp1_pt, createUserEntity_poolTokens]
  have hT2tok : (virtualSupplyAdjust
      (weightAmpRefresh env (createUserEntity s ev.txFrom) pool ev).1
      (weightAmpRefresh env (createUserEntity s ev.txFrom) pool ev).2 ev).1.tokens
      = s.tokens := by rw [hVt, hsp1_t, createUserEntity_tokens]
  have hload_in : loadPoolToken (virtualSupplyAdjust
      (weightAmpRefresh env (createUserEntity s ev.txFrom) pool ev).1
      (weightAmpRefresh env (createUserEntity s ev.txFrom) pool ev).2 ev).1
      ev.poolId ev.tokenIn = some ptI := by
    unfold loadPoolToken
    rw [hT2ptk]
    exact hptIn
  have hload_out : loadPoolToken (virtualSupplyAdjust
      (weightAmpRefresh env (createUserEntity s ev.txFrom) pool ev).1
      (weightAmpRefresh env (createUserEntity s ev.txFrom) pool ev).2 ev).1
      ev.poolId ev.tokenOut = some ptO := by
    unfold loadPoolToken
    rw [hT2ptk]
    exact hptOut
  have hallSB : ∀ a ∈ (virtualSupplyAdjust
      (weightAmpRefresh env (createUserEntity s ev.txFrom) pool ev).1
      (weightAmpRefresh env (createUserEntity s ev.txFrom) pool ev).2 ev).2.tokensList,
      a ≠ (virtualSupplyAdjust
        (weightAmpRefresh env (createUserEntity s ev.txFrom) pool ev).1
        (weightAmpRefresh env (createUserEntity s ev.txFrom) pool ev).2 ev).2.address →
      (loadPoolToken
        (savePoolToken
          (savePoolToken (virtualSupplyAdjust
            (weightAmpRefresh env (createUserEntity s ev.txFrom) pool ev).1
            (weightAmpRefresh env (createUserEntity s ev.txFrom) pool ev).2 ev).1
            ev.poolId ev.tokenIn
            { ptI with balance := ptI.balance + scaleDown ev.amountIn ptI.decimals })
          ev.poolId ev.tokenOut
          { ptO with balance := ptO.balance - scaleDown ev.amountOut ptO.decimals })
        (virtualSupplyAdjust
          (weightAmpRefresh env (createUserEntity s ev.txFrom) pool ev).1
          (weightAmpRefresh env (createUserEntity s ev.txFrom) pool ev).2 ev).2.id
        a).isSome := by
    intro a ha hane
    rw [hT2tl] at ha
    rw [hT2addr] at hane
    rw [hT2id, hid]
    unfold loadPoolToken
    by_cases haO : a = ev.tokenOut
    · simp [savePoolToken, haO]
    · by_cases haI : a = ev.tokenIn
      · simp [savePoolToken, haO, haI, hneq]
      · simp only [savePoolToken]
        rw [if_neg (by simp [haO]), if_neg (by simp [haI]), hT2ptk]
        exact hallpt a ha hane
  obtain ⟨pool2, hrefresh, hr_id, hr_addr, hr_ptype, hr_tl, hr_ts, hr_sc, hr_hc, hr_amp⟩ :=
    joinExitSwapInvariantRefresh_ok env
      (savePoolToken
        (savePoolToken (virtualSupplyAdjust
          (weightAmpRefresh env (createUserEntity s ev.txFrom) pool ev).1
          (weightAmpRefresh env (createUserEntity s ev.txFrom) pool ev).2 ev).1
          ev.poolId ev.tokenIn
          { ptI with balance := ptI.balance + scaleDown ev.amountIn ptI.decimals })
        ev.poolId ev.tokenOut
        { ptO with balance := ptO.balance - scaleDown ev.amountOut ptO.decimals })
      (virtualSupplyAdjust
        (weightAmpRefresh env (createUserEntity s ev.txFrom) pool ev).1
        (weightAmpRefresh env (createUserEntity s ev.txFrom) pool ev).2 ev).2
      ev hallSB
  have hSBtok : (savePoolToken
      (savePoolToken (virtualSupplyAdjust
        (weightAmpRefresh env (createUserEntity s ev.txFrom) pool ev).1
        (weightAmpRefresh env (createUserEntity s ev.txFrom) pool ev).2 ev).1
        ev.poolId ev.tokenIn
        { ptI with balance := ptI.balance + scaleDown ev.amountIn ptI.decimals })
      ev.poolId ev.tokenOut
      { ptO with balance := ptO.balance - scaleDown ev.amountOut ptO.decimals }).tokens
      = s.tokens := by
    simp only [savePoolToken]
    exact hT2tok
  have hSBps : (savePoolToken
      (savePoolToken (virtualSupplyAdjust
        (weightAmpRefresh env (createUserEntity s ev.txFrom) pool ev).1
        (weightAmpRefresh env (createUserEntity s ev.txFrom) pool ev).2 ev).1
        ev.poolId ev.tokenIn
        { ptI with balance := ptI.balance + scaleDown ev.amountIn ptI.decimals })
      ev.poolId ev.tokenOut
      { ptO with balance := ptO.balance - scaleDown ev.amountOut ptO.decimals }).poolShares
      = (virtualSupplyAdjust
        (weightAmpRefresh env (createUserEntity s ev.txFrom) pool ev).1
        (weightAmpRefresh env (createUserEntity s ev.txFrom) pool ev).2 ev).1.poolShares := by
    simp [savePoolToken]
  have hSBb : (savePoolToken
      (savePoolToken (virtualSupplyAdjust
        (weightAmpRefresh env (createUserEntity s ev.txFrom) pool ev).1
        (weightAmpRefresh env (createUserEntity s ev.txFrom) pool ev).2 ev).1
        ev.poolId ev.tokenIn
        { ptI with balance := ptI.balance + scaleDown ev.amountIn ptI.decimals })
      ev.poolId ev.tokenOut
      { ptO with balance := ptO.balance - scaleDown ev.amountOut ptO.decimals }).balancer
      = s.balancer := by
    simp only [savePoolToken]
    rw [hVb, hsp1_b, createUserEntity_balancer]
  have hSBsn : (savePoolToken
      (savePoolToken (virtualSupplyAdjust
        (weightAmpRefresh env (createUserEntity s ev.txFrom) pool ev).1
        (weightAmpRefresh env (createUserEntity s ev.txFrom) pool ev).2 ev).1
        ev.poolId ev.tokenIn
        { ptI with balance := ptI.balance + scaleDown ev.amountIn ptI.decimals })
      ev.poolId ev.tokenOut
      { ptO with balance := ptO.balance - scaleDown ev.amountOut ptO.decimals }).snapshots
      = s.snapshots := by
    simp only [savePoolToken]
    rw [hVsn, hsp1_sn, createUserEntity_snapshots]
  have hSBtI : (savePoolToken
      (savePoolToken (virtualSupplyAdjust
        (weightAmpRefresh env (createUserEntity s ev.txFrom) pool ev).1
        (weightAmpRefresh env (createUserEntity s ev.txFrom) pool ev).2 ev).1
        ev.poolId ev.tokenIn
        { ptI with balance := ptI.balance + scaleDown ev.amountIn ptI.decimals })
      ev.poolId ev.tokenOut
      { ptO with balance := ptO.balance - scaleDown ev.amountOut ptO.decimals }).tokens
      ev.tokenIn = some tokI := by
    rw [hSBtok]
    exact htokIn
  have hSBtO : (savePoolToken
      (savePoolToken (virtualSupplyAdjust
        (weightAmpRefresh env (createUserEntity s ev.txFrom) pool ev).1
        (weightAmpRefresh env (createUserEntity s ev.txFrom) pool ev).2 ev).1
        ev.poolId ev.tokenIn
        { ptI with balance := ptI.balance + scaleDown ev.amountIn ptI.decimals })
      ev.poolId ev.tokenOut
      { ptO with balance := ptO.balance - scaleDown ev.amountOut ptO.decimals }).tokens
      ev.tokenOut = some tokO := by
    rw [hSBtok]
    exact htokOut
  obtain ⟨hF1, hF2, hF3, hF4, hF5, hF6, hF7, hF8, hF9, hF10⟩ :=
    swapFinalize_spec env
      (savePoolToken
        (savePoolToken (virtualSupplyAdjust
          (weightAmpRefresh env (createUserEntity s ev.txFrom) pool ev).1
          (weightAmpRefresh env (createUserEntity s ev.txFrom) pool ev).2 ev).1
          ev.poolId ev.tokenIn
          { ptI with balance := ptI.balance + scaleDown ev.amountIn ptI.decimals })
        ev.poolId ev.tokenOut
        { ptO with balance := ptO.balance - scaleDown ev.amountOut ptO.decimals })
      ev pool2 ptI ptO tokI tokO hneq hSBtI hSBtO
  have hS0p : (createUserEntity s ev.txFrom).pools ev.poolId = some pool := by
    rw [createUserEntity_pools]
    exact hp
  have hrun : handleSwapEvent env s ev = .ok
      ⟨swapFinalize env
        (savePoolToken
          (savePoolToken (virtualSupplyAdjust
            (weightAmpRefresh env (createUserEntity s ev.txFrom) pool ev).1
            (weightAmpRefresh env (createUserEntity s ev.txFrom) pool ev).2 ev).1
            ev.poolId ev.tokenIn
            { ptI with balance := ptI.balance + scaleDown ev.amountIn ptI.decimals })
          ev.poolId ev.tokenOut
          { ptO with balance := ptO.balance - scaleDown ev.amountOut ptO.decimals })
        ev pool2 ptI ptO, [], []⟩ := by
    unfold handleSwapEvent
    simp only [hS0p, hload_in, hload_out, hrefresh]
  refine ⟨_, { pool2 with swapsCount := pool2.swapsCount + 1 }, hrun, rfl, rfl,
    hF1, ?_, ?_, ?_, ?_, ?_, ?_, ?_, ?_, ?_, ?_, ?_, ?_, ?_, ?_, ?_, ?_, ?_, ?_⟩
  · show pool2.id = pool.id
    exact hr_id.trans hT2id
  · show pool2.address = pool.address
    exact hr_addr.trans hT2addr
  · show pool2.poolType = pool.poolType
    exact hr_ptype.trans hT2ptype
  · show pool2.tokensList = pool.tokensList
    exact hr_tl.trans hT2tl
  · show pool2.holdersCount = pool.holdersCount
    exact hr_hc.trans hT2hc
  · show pool2.swapsCount + 1 = pool.swapsCount + 1
    rw [hr_sc.trans hT2sc]
  · show pool2.totalShares = _
    exact hr_ts.trans hT2ts
  · calc vaultShareBalance _ ev.poolId
        = poolShareBalanceAt _ (getPoolAddress ev.poolId, VAULT_ADDRESS) :=
          vaultShareBalance_eq_balanceAt _ _
      _ = poolShareBalanceAt
            (savePoolToken
              (savePoolToken (virtualSupplyAdjust
                (weightAmpRefresh env (createUserEntity s ev.txFrom) pool ev).1
                (weightAmpRefresh env (createUserEntity s ev.txFrom) pool ev).2 ev).1
                ev.poolId ev.tokenIn
                { ptI with balance := ptI.balance + scaleDown ev.amountIn ptI.decimals })
              ev.poolId ev.tokenOut
              { ptO with balance := ptO.balance - scaleDown ev.amountOut ptO.decimals })
            (getPoolAddress ev.poolId, VAULT_ADDRESS) :=
          poolShareBalanceAt_congr _ _ _ hF4
      _ = poolShareBalanceAt (virtualSupplyAdjust
            (weightAmpRefresh env (createUserEntity s ev.txFrom) pool ev).1
            (weightAmpRefresh env (createUserEntity s ev.txFrom) pool ev).2 ev).1
            (getPoolAddress ev.poolId, VAULT_ADDRESS) :=
          poolShareBalanceAt_congr _ _ _ hSBps
      _ = poolShareBalanceAt
            (weightAmpRefresh env (createUserEntity s ev.txFrom) pool ev).1
            (getPoolAddress ev.poolId, VAULT_ADDRESS)
          - (if hasVirtualSupply
                (weightAmpRefresh env (createUserEntity s ev.txFrom) pool ev).2 = true
              ∧ ev.tokenIn
                = (weightAmpRefresh env (createUserEntity s ev.txFrom) pool ev).2.address then
              tokenToDecimal ev.amountIn 18 else 0)
          + (if hasVirtualSupply
                (weightAmpRefresh env (createUserEntity s ev.txFrom) pool ev).2 = true
              ∧ ev.tokenOut
                = (weightAmpRefresh env (createUserEntity s ev.txFrom) pool ev).2.address then
              tokenToDecimal ev.amountOut 18 else 0) := hVbal
      _ = vaultShareBalance s ev.poolId
          - (if hasVirtualSupply pool = true ∧ ev.tokenIn = pool.address then
              tokenToDecimal ev.amountIn 18 else 0)
          + (if hasVirtualSupply pool = true ∧ ev.tokenOut = pool.address then
              tokenToDecimal ev.amountOut 18 else 0) := by
          rw [hsp1_2, poolShareBalanceAt_congr
              (weightAmpRefresh env (createUserEntity s ev.txFrom) pool ev).1
              (createUserEntity s ev.txFrom) _ hsp1_ps,
            poolShareBalanceAt_congr (createUserEntity s ev.txFrom) s _
              (createUserEntity_poolShares s ev.txFrom),
            vaultShareBalance_eq_balanceAt]
          simp [hasVirtualSupply, isComposableStablePool, isManagedPool]
  · rw [hF3]
    simp [savePoolToken, hneq]
  · rw [hF3]
    simp [savePoolToken]
  · intro k hkI hkO
    rw [hF3]
    simp only [savePoolToken]
    rw [if_neg hkO, if_neg hkI, hT2ptk]
  · exact hF5
  · exact hF6
  · intro a hin hout
    rw [hF7 a hin hout, hSBtok]
  · rw [hF8, hSBb]
  · exact hF9
  · intro hz
    rw [hF10 hz, hSBsn]
  · intro k hk
    rw [hF4, hSBps, hVother k hk, hsp1_ps, createUserEntity_poolShares]


/-- The effect of a successful `handlePoolJoined` on each entity the claims
read: the (conditional) premint adjustment with its synthetic transfer, the
fee-netted per-token balance updates, the mirrored token notionals, and the
gross-amount `JoinExit` audit record. -/
theorem handlePoolJoined_spec (env : Env) (s : Store) (ev : PoolBalanceChangedEv)
    (pool : Pool)
    (hp : s.pools ev.poolId = some pool)
    (hnodup : pool.tokensList.Nodup)
    (hlen : ev.deltas.length = pool.tokensList.length)
    (hall : ∀ a ∈ pool.tokensList, (s.poolTokens (ev.poolId, a)).isSome) :
    ∃ r, handlePoolJoined env s ev = .ok r
      ∧ ((pool.poolType == "StablePhantom" || isComposableStablePool pool
            || isManagedPool pool) = true →
          r.store.pools ev.poolId = some { pool with
              totalShares := pool.totalShares
                               - scaleDown (premintScan pool.tokensList ev.deltas pool.address) 18 }
          ∧ r.transfers = [⟨pool.address, VAULT_ADDRESS, ZERO_ADDRESS,
              premintScan pool.tokensList ev.deltas pool.address⟩])
      ∧ ((pool.poolType == "StablePhantom" || isComposableStablePool pool
            || isManagedPool pool) = false →
          r.store.pools ev.poolId = some pool ∧ r.transfers = [])
      ∧ (∀ j, j < pool.tokensList.length → ∀ pt,
          s.poolTokens (ev.poolId, pool.tokensList.getD j "") = some pt →
          r.store.poolTokens (ev.poolId, pool.tokensList.getD j "") = some
            { pt with balance := pt.balance + tokenToDecimal
                                   (ev.deltas.getD j 0 - ev.protocolFeeAmounts.getD j 0)
                                   pt.decimals })
      ∧ (∀ j, j < pool.tokensList.length → ∀ pt t,
          s.poolTokens (ev.poolId, pool.tokensList.getD j "") = some pt →
          s.tokens (pool.tokensList.getD j "") = some t →
          r.store.tokens (pool.tokensList.getD j "") = some
            { t with totalBalanceNotional := t.totalBalanceNotional + tokenToDecimal
                                               (ev.deltas.getD j 0 - ev.protocolFeeAmounts.getD j 0)
                                               pt.decimals })
      ∧ (∃ amts, r.store.joinExits (ev.txHash, ev.logIndex) = some
            { type := "Join", amounts := amts, pool := ev.poolId
              user := ev.liquidityProvider, sender := ev.liquidityProvider
              timestamp := ev.blockTimestamp, block := ev.blockNumber, tx := ev.txHash }
          ∧ amts.length = ev.deltas.length
          ∧ (∀ j, j < pool.tokensList.length → ∀ pt,
              s.poolTokens (ev.poolId, pool.tokensList.getD j "") = some pt →
              amts.getD j none = some (scaleDown (ev.deltas.getD j 0) pt.decimals))) := by
  obtain ⟨res, hgo1, hreslen, _, hresEff⟩ :=
    joinExitAmountsGo_ok s ev.poolId ev.deltas 1 pool.tokensList 0
      (List.replicate ev.deltas.length none) hall
  obtain ⟨s2, hgo2, hP, hPS, hJE, hSW, hSN, hU, hB, hKPT, hKT, hEPT, hET⟩ :=
    joinExitBalancesGo_spec env ev.poolId ev.deltas ev.protocolFeeAmounts 1
      pool.tokensList 0
      (saveJoinExit s (ev.txHash, ev.logIndex)
        { type := "Join", amounts := res, pool := ev.poolId
          user := ev.liquidityProvider, sender := ev.liquidityProvider
          timestamp := ev.blockTimestamp, block := ev.blockNumber, tx := ev.txHash })
      hnodup
      (by
        intro a ha
        simp only [saveJoinExit]
        exact hall a ha)
  have hsjPT : ∀ k, (saveJoinExit s (ev.txHash, ev.logIndex)
      { type := "Join", amounts := res, pool := ev.poolId
        user := ev.liquidityProvider, sender := ev.liquidityProvider
        timestamp := ev.blockTimestamp, block := ev.blockNumber, tx := ev.txHash }).poolTokens k
      = s.poolTokens k := fun _ => rfl
  have hsjT : ∀ a, (saveJoinExit s (ev.txHash, ev.logIndex)
      { type := "Join", amounts := res, pool := ev.poolId
        user := ev.liquidityProvider, sender := ev.liquidityProvider
        timestamp := ev.blockTimestamp, block := ev.blockNumber, tx := ev.txHash }).tokens a
      = s.tokens a := fun _ => rfl
  cases hC : (pool.poolType == "StablePhantom" || isComposableStablePool pool
      || isManagedPool pool) with
  | true =>
    have hrun : handlePoolJoined env s ev = .ok
        ⟨updatePoolLiquidity
            (savePool s2 ev.poolId { pool with
              totalShares := pool.totalShares
                               - scaleDown (premintScan pool.tokensList ev.deltas pool.address) 18 })
            ev.poolId ev.blockTimestamp,
          [⟨pool.address, VAULT_ADDRESS, ZERO_ADDRESS,
            premintScan pool.tokensList ev.deltas pool.address⟩], []⟩ := by
      unfold handlePoolJoined
      simp only [hp, hgo1, hgo2, hC, if_true]
    refine ⟨_, hrun, ?_, ?_, ?_, ?_, ?_⟩
    · intro _
      constructor
      · simp [savePool]
      · rfl
    · intro hC2
      exact absurd hC2 (by simp)
    · intro j hj pt hpt
      have h := hEPT j hj pt (by rw [hsjPT]; exact hpt)
      simp only [updatePoolLiquidity_poolTokens, savePool]
      simpa using h
    · intro j hj pt t hpt ht
      have h := hET j hj pt t (by rw [hsjPT]; exact hpt) (by rw [hsjT]; exact ht)
      simp only [updatePoolLiquidity_tokens, savePool]
      simpa using h
    · refine ⟨res, ?_, ?_, ?_⟩
      · simp only [updatePoolLiquidity_joinExits, savePool]
        rw [hJE]
        simp [saveJoinExit]
      · rw [hreslen, List.length_replicate]
      · intro j hj pt hpt
        have h := hresEff j hj pt hpt
          (by rw [List.length_replicate, hlen]; omega)
        simpa using h
  | false =>
    have hrun : handlePoolJoined env s ev = .ok
        ⟨updatePoolLiquidity (savePool s2 ev.poolId pool) ev.poolId ev.blockTimestamp,
          [], []⟩ := by
      unfold handlePoolJoined
      simp only [hp, hgo1, hgo2, hC]
      simp
    refine ⟨_, hrun, ?_, ?_, ?_, ?_, ?_⟩
    · intro hC2
      exact absurd hC2 (by simp)
    · intro _
      constructor
      · simp [savePool]
      · rfl
    · intro j hj pt hpt
      have h := hEPT j hj pt (by rw [hsjPT]; exact hpt)
      simp only [updatePoolLiquidity_poolTokens, savePool]
      simpa using h
    · intro j hj pt t hpt ht
      have h := hET j hj pt t (by rw [hsjPT]; exact hpt) (by rw [hsjT]; exact ht)
      simp only [updatePoolLiquidity_tokens, savePool]
      simpa using h
    · refine ⟨res, ?_, ?_, ?_⟩
      · simp only [updatePoolLiquidity_joinExits, savePool]
        rw [hJE]
        simp [saveJoinExit]
      · rw [hreslen, List.length_replicate]
      · intro j hj pt hpt
        have h := hresEff j hj pt hpt
          (by rw [List.length_replicate, hlen]; omega)
        simpa using h

/-! ### Claim C3 -/

/-- The effect of a successful `handleBalanceManage` on the touched
`PoolToken`. -/
theorem handleBalanceManage_effect (env : Env) (s : Store)
    (ev : PoolBalanceManagedEv) (pool : Pool) (pt : PoolToken)
    (hp : s.pools ev.poolId = some pool)
    (hpt : loadPoolToken s ev.poolId ev.token = some pt) :
    ∃ r, handleBalanceManage env s ev = .ok r
      ∧ r.store.poolTokens (ev.poolId, ev.token) = some
          { pt with
              balance := pt.balance + (tokenToDecimal ev.cashDelta pt.decimals
                + tokenToDecimal ev.managedDelta pt.decimals)
              cashBalance := pt.cashBalance + tokenToDecimal ev.cashDelta pt.decimals
              managedBalance := pt.managedBalance + tokenToDecimal ev.managedDelta pt.decimals } := by
  unfold handleBalanceManage
  simp only [hp, hpt]
  refine ⟨_, rfl, ?_⟩
  simp [saveToken, savePoolToken]

/-- **C3 (amended).** A `PoolBalanceManaged` event on an existing pool and
`PoolToken` changes `balance` by exactly the sum of the changes of
`cashBalance` and `managedBalance`: the discrepancy
`balance - (cashBalance + managedBalance)` is preserved, so the equation
`balance == cashBalance + managedBalance` holds after the event whenever it
held before — but the event does not establish it from an arbitrary prior
reachable state. -/
theorem c3_balance_manage_preserves_reconciliation (env : Env) (s : Store)
    (ev : PoolBalanceManagedEv) (pool : Pool) (pt : PoolToken)
    (hp : s.pools ev.poolId = some pool)
    (hpt : loadPoolToken s ev.poolId ev.token = some pt) :
    ∃ r pt2, handleBalanceManage env s ev = .ok r
      ∧ r.store.poolTokens (ev.poolId, ev.token) = some pt2
      ∧ pt2.balance - (pt2.cashBalance + pt2.managedBalance)
          = pt.balance - (pt.cashBalance + pt.managedBalance)
      ∧ (pt.balance = pt.cashBalance + pt.managedBalance →
          pt2.balance = pt2.cashBalance + pt2.managedBalance) := by
  unfold handleBalanceManage
  simp only [hp, hpt]
  refine ⟨_,
    { pt with
        balance := pt.balance + (tokenToDecimal ev.cashDelta pt.decimals
          + tokenToDecimal ev.managedDelta pt.decimals)
        cashBalance := pt.cashBalance + tokenToDecimal ev.cashDelta pt.decimals
        managedBalance := pt.managedBalance + tokenToDecimal ev.managedDelta pt.decimals },
    rfl, ?_, ?_, ?_⟩
  · simp [saveToken, savePoolToken]
  · show pt.balance + (tokenToDecimal ev.cashDelta pt.decimals
        + tokenToDecimal ev.managedDelta pt.decimals)
      - ((pt.cashBalance + tokenToDecimal ev.cashDelta pt.decimals)
        + (pt.managedBalance + tokenToDecimal ev.managedDelta pt.decimals))
      = pt.balance - (pt.cashBalance + pt.managedBalance)
    ring
  · intro h
    show pt.balance + (tokenToDecimal ev.cashDelta pt.decimals
        + tokenToDecimal ev.managedDelta pt.decimals)
      = (pt.cashBalance + tokenToDecimal ev.cashDelta pt.decimals)
        + (pt.managedBalance + tokenToDecimal ev.managedDelta pt.decimals)
    rw [h]
    ring

/-- Witness for C3 at a concrete reconciled `PoolToken`. -/
theorem c3_balance_manage_preserves_reconciliation_witness :
    s3w.pools ev3manage.poolId = some p3
    ∧ loadPoolToken s3w ev3manage.poolId ev3manage.token = some pt3w
    ∧ (∃ r pt2, handleBalanceManage env0 s3w ev3manage = .ok r
        ∧ r.store.poolTokens (ev3manage.poolId, ev3manage.token) = some pt2
        ∧ pt2.balance - (pt2.cashBalance + pt2.managedBalance)
            = pt3w.balance - (pt3w.cashBalance + pt3w.managedBalance)
        ∧ (pt3w.balance = pt3w.cashBalance + pt3w.managedBalance →
            pt2.balance = pt2.cashBalance + pt2.managedBalance)) :=
  ⟨by decide, by decide,
    c3_balance_manage_preserves_reconciliation env0 s3w ev3manage p3 pt3w
      (by decide) (by decide)⟩

/-- **C3 counterexample.** From the initial state, a join deposits one raw
unit into `PoolToken("p3","0xa")` (balance 1, cash 0, managed 0) — a reachable
state violating the reconciliation equation — and the subsequent
`PoolBalanceManaged` event then leaves `balance = 2` against
`cashBalance + managedBalance = 1`: the equation does not hold after the
event. -/
theorem c3_counterexample :
    ∃ r1 r2 pt2, handleBalanceChange env0 s3 ev3join = .ok r1
      ∧ handleBalanceManage env0 r1.store ev3manage = .ok r2
      ∧ r2.store.poolTokens ("p3", "0xa") = some pt2
      ∧ pt2.balance ≠ pt2.cashBalance + pt2.managedBalance := by
  have hdisp : handleBalanceChange env0 s3 ev3join = handlePoolJoined env0 s3 ev3join := by
    unfold handleBalanceChange
    rw [if_neg (by decide), if_pos (by decide)]
  obtain ⟨r1, hrun1, _, hCfalse, hEPT1, _, _⟩ :=
    handlePoolJoined_spec env0 s3 ev3join p3 (by decide) (by decide) (by decide) (by decide)
  have hg0 : p3.tokensList.getD 0 "" = "0xa" := rfl
  have hpt1 := hEPT1 0 (by decide) (freshPoolToken "p3" "0xa" "A" 0) (by decide)
  rw [hg0] at hpt1
  have hpool1 : r1.store.pools ev3manage.poolId = some p3 := (hCfalse (by decide)).1
  obtain ⟨r2, hrun2, hpt2⟩ :=
    handleBalanceManage_effect env0 r1.store ev3manage p3 _ hpool1 hpt1
  refine ⟨r1, r2, _, hdisp.trans hrun1, hrun2, hpt2, ?_⟩
  simp only [freshPoolToken, ev3join, ev3manage, tokenToDecimal]
  norm_num

theorem ratTrunc_intCast (z : ℤ) : ratTrunc (z : ℚ) = z := by
  unfold ratTrunc
  rcases le_or_lt 0 (z : ℚ) with h | h
  · simp [h]
  · simp [not_le.mpr h]

theorem scaleUp_eq_ratTrunc (num : ℚ) (decimals : ℕ) :
    scaleUp num decimals = ratTrunc (num * (10 : ℚ) ^ decimals) := by
  unfold scaleUp bdTruncate
  have hpow : ((10 : ℚ) ^ decimals) ≠ 0 := by positivity
  rw [div_mul_cancel₀ _ hpow, ratTrunc_intCast]

theorem scaleUp_scaleDown (r : ℤ) (d : ℕ) : scaleUp (scaleDown r d) d = r := by
  rw [scaleUp_eq_ratTrunc]
  unfold scaleDown
  have hpow : ((10 : ℚ) ^ d) ≠ 0 := by positivity
  rw [div_mul_cancel₀ _ hpow, ratTrunc_intCast]

/-! ### Claim C7 -/

/-- **C7.** `fromDecimal` (`scaleUp`) truncates its decimal argument toward
zero to `decimals` fractional digits before scaling by `10^decimals` — so
`scaleUp num d` is exactly the toward-zero integer truncation of
`num * 10^d`, never a rounding (`3/2` scales to `1` and `-3/2` to `-1` at
zero decimals) — and for every raw integer `r` and decimals `d` the
round-trip `fromDecimal(toDecimal(r, d), d) = r` holds exactly. -/
theorem c7_scaleUp_truncates_and_roundtrips :
    (∀ (num : ℚ) (d : ℕ), scaleUp num d = ratTrunc (num * (10 : ℚ) ^ d))
    ∧ (∀ (r : ℤ) (d : ℕ), scaleUp (scaleDown r d) d = r)
    ∧ scaleUp (3 / 2 : ℚ) 0 = 1
    ∧ scaleUp (-3 / 2 : ℚ) 0 = -1 := by
  refine ⟨scaleUp_eq_ratTrunc, scaleUp_scaleDown, ?_, ?_⟩
  · rw [scaleUp_eq_ratTrunc]
    norm_num [ratTrunc]
  · rw [scaleUp_eq_ratTrunc]
    norm_num [ratTrunc]
    rw [Int.ceil_neg]
    norm_num

/-! ### Premint scan lemmas and claim C1 -/

theorem premintScanGo_none (amounts : List ℤ) (addr : Addr) (l : List Addr)
    (i : ℕ) (acc : ℤ) (h : ∀ k, k < l.length → l.getD k "" ≠ addr) :
    premintScanGo amounts addr l i acc = acc := by
  induction l generalizing i acc with
  | nil => rfl
  | cons a rest ih =>
    unfold premintScanGo
    rw [if_neg (by simpa using h 0 (by simp))]
    refine ih (i + 1) acc ?_
    intro k hk
    simpa using h (k + 1) (by simpa using hk)

theorem premintScanGo_unique (amounts : List ℤ) (addr : Addr) (l : List Addr)
    (i : ℕ) (acc : ℤ) (j : ℕ) (hj : j < l.length) (hja : l.getD j "" = addr)
    (hothers : ∀ k, k < l.length → k ≠ j → l.getD k "" ≠ addr) :
    premintScanGo amounts addr l i acc = amounts.getD (i + j) 0 := by
  induction l generalizing i acc j with
  | nil => exact absurd hj (Nat.not_lt_zero j)
  | cons a rest ih =>
    cases j with
    | zero =>
      simp only [List.getD_cons_zero] at hja
      unfold premintScanGo
      rw [if_pos hja]
      have hrest : ∀ k, k < rest.length → rest.getD k "" ≠ addr := by
        intro k hk
        simpa using hothers (k + 1) (by simpa using hk) (by omega)
      rw [premintScanGo_none amounts addr rest (i + 1) _ hrest]
      simp
    | succ j2 =>
      have hj2 : j2 < rest.length := by simpa using hj
      simp only [List.getD_cons_succ] at hja
      unfold premintScanGo
      have ha : a ≠ addr := by simpa using hothers 0 (by simp) (by omega)
      rw [if_neg ha]
      have hidx : i + (j2 + 1) = (i + 1) + j2 := by omega
      rw [hidx]
      refine ih (i + 1) acc j2 hj2 hja ?_
      intro k hk hkj
      simpa using hothers (k + 1) (by simpa using hk) (by omega)

theorem premintScan_unique (tl : List Addr) (amounts : List ℤ) (addr : Addr)
    (j : ℕ) (hj : j < tl.length) (hja : tl.getD j "" = addr)
    (hothers : ∀ k, k < tl.length → k ≠ j → tl.getD k "" ≠ addr) :
    premintScan tl amounts addr = amounts.getD j 0 := by
  unfold premintScan
  simpa using premintScanGo_unique amounts addr tl 0 0 j hj hja hothers

/-- **C1.** A Join (`PoolBalanceChanged` with a positive delta sum) on a pool
with preminted share token (virtual-supply pool) whose own address appears in
`tokensList` (at the unique index `j`) treats `deltas[j]` as the preminted
share amount: `totalShares` is decreased by that amount scaled at 18
decimals, and exactly one synthetic transfer event — from the vault address
to the zero address, with raw value `deltas[j]`, on the pool's share token —
is dispatched to the share-transfer handler. -/
theorem c1_premint_subtracted_and_burned (env : Env) (s : Store)
    (ev : PoolBalanceChangedEv) (pool : Pool) (j : ℕ)
    (hp : s.pools ev.poolId = some pool)
    (hnodup : pool.tokensList.Nodup)
    (hlen : ev.deltas.length = pool.tokensList.length)
    (hall : ∀ a ∈ pool.tokensList, (loadPoolToken s ev.poolId a).isSome)
    (hvs : hasVirtualSupply pool = true)
    (hj : j < pool.tokensList.length)
    (hja : pool.tokensList.getD j "" = pool.address)
    (hothers : ∀ k, k < pool.tokensList.length → k ≠ j →
      pool.tokensList.getD k "" ≠ pool.address)
    (hne : ev.deltas.length ≠ 0)
    (hpos : ev.deltas.foldl (· + ·) 0 > 0) :
    ∃ r, handleBalanceChange env s ev = .ok r
      ∧ r.store.pools ev.poolId = some { pool with
          totalShares := pool.totalShares - scaleDown (ev.deltas.getD j 0) 18 }
      ∧ r.transfers = [⟨pool.address, VAULT_ADDRESS, ZERO_ADDRESS, ev.deltas.getD j 0⟩] := by
  have hdisp : handleBalanceChange env s ev = handlePoolJoined env s ev := by
    unfold handleBalanceChange
    rw [if_neg hne, if_pos hpos]
  obtain ⟨r, hrun, hCtrue, _, _, _, _⟩ :=
    handlePoolJoined_spec env s ev pool hp hnodup hlen hall
  have hscan : premintScan pool.tokensList ev.deltas pool.address = ev.deltas.getD j 0 :=
    premintScan_unique pool.tokensList ev.deltas pool.address j hj hja hothers
  have hC : (pool.poolType == "StablePhantom" || isComposableStablePool pool
      || isManagedPool pool) = true := hvs
  obtain ⟨hpools, htransfers⟩ := hCtrue hC
  refine ⟨r, hdisp.trans hrun, ?_, ?_⟩
  · rw [hpools, hscan]
  · rw [htransfers, hscan]

/-- Witness for C1 at a concrete composable-stable pool whose share token is
at index 0 of its `tokensList`. -/
theorem c1_premint_subtracted_and_burned_witness :
    ∃ r, handleBalanceChange env0 s1c ev1c = .ok r
      ∧ r.store.pools ev1c.poolId = some { p1c with
          totalShares := p1c.totalShares - scaleDown (ev1c.deltas.getD 0 0) 18 }
      ∧ r.transfers = [⟨p1c.address, VAULT_ADDRESS, ZERO_ADDRESS, ev1c.deltas.getD 0 0⟩] :=
  c1_premint_subtracted_and_burned env0 s1c ev1c p1c 0 (by decide) (by decide)
    (by decide) (by decide) (by decide) (by decide) (by decide) (by decide)
    (by decide) (by decide)

/-! ### Claim C2 -/

/-- **C2.** For every Join on a known pool with all `PoolToken` entities
present, each `PoolToken.balance` increases by
`toDecimal(deltas[i] - protocolFeeAmounts[i], decimals)` and the token's
`totalBalanceNotional` increases by the same fee-netted amount, while the
`JoinExit` record stores the gross `toDecimal(deltas[i], decimals)`; in
particular, for a pool with tokens A (6 decimals) and B (18 decimals), a Join
with deltas `[1_000000, 2_000000000000000000]` and zero fees yields
`PoolToken(A).balance = 1`, `PoolToken(B).balance = 2` and one `JoinExit`
record with amounts `[1, 2]`. -/
theorem c2_join_fee_netted_balances_and_gross_audit :
    (∀ (env : Env) (s : Store) (ev : PoolBalanceChangedEv) (pool : Pool),
      s.pools ev.poolId = some pool →
      pool.tokensList.Nodup →
      ev.deltas.length = pool.tokensList.length →
      (∀ a ∈ pool.tokensList, (loadPoolToken s ev.poolId a).isSome) →
      ∃ r, handlePoolJoined env s ev = .ok r
        ∧ (∀ j, j < pool.tokensList.length → ∀ pt,
            loadPoolToken s ev.poolId (pool.tokensList.getD j "") = some pt →
            r.store.poolTokens (ev.poolId, pool.tokensList.getD j "") = some
              { pt with balance := pt.balance + tokenToDecimal
                                     (ev.deltas.getD j 0 - ev.protocolFeeAmounts.getD j 0)
                                     pt.decimals })
        ∧ (∀ j, j < pool.tokensList.length → ∀ pt t,
            loadPoolToken s ev.poolId (pool.tokensList.getD j "") = some pt →
            s.tokens (pool.tokensList.getD j "") = some t →
            r.store.tokens (pool.tokensList.getD j "") = some
              { t with totalBalanceNotional := t.totalBalanceNotional + tokenToDecimal
                                                 (ev.deltas.getD j 0 - ev.protocolFeeAmounts.getD j 0)
                                                 pt.decimals })
        ∧ (∃ amts, r.store.joinExits (ev.txHash, ev.logIndex) = some
              { type := "Join", amounts := amts, pool := ev.poolId
                user := ev.liquidityProvider, sender := ev.liquidityProvider
                timestamp := ev.blockTimestamp, block := ev.blockNumber, tx := ev.txHash }
            ∧ amts.length = ev.deltas.length
            ∧ (∀ j, j < pool.tokensList.length → ∀ pt,
                loadPoolToken s ev.poolId (pool.tokensList.getD j "") = some pt →
                amts.getD j none = some (scaleDown (ev.deltas.getD j 0) pt.decimals))))
    ∧ (∃ r, handleBalanceChange env0 s2c ev2c = .ok r
        ∧ (r.store.poolTokens ("p2", "0xA")).map PoolToken.balance = some 1
        ∧ (r.store.poolTokens ("p2", "0xB")).map PoolToken.balance = some 2
        ∧ (∃ je, r.store.joinExits (ev2c.txHash, ev2c.logIndex) = some je
            ∧ je.type = "Join" ∧ je.amounts = [some 1, some 2])) := by
  constructor
  · intro env s ev pool hp hnodup hlen hall
    obtain ⟨r, hrun, _, _, hEPT, hET, hJE⟩ :=
      handlePoolJoined_spec env s ev pool hp hnodup hlen hall
    exact ⟨r, hrun, hEPT, hET, hJE⟩
  · have hdisp : handleBalanceChange env0 s2c ev2c = handlePoolJoined env0 s2c ev2c := by
      unfold handleBalanceChange
      rw [if_neg (by decide), if_pos (by decide)]
    obtain ⟨r, hrun, _, _, hEPT, _, amts, hje, hlenj, hamts⟩ :=
      handlePoolJoined_spec env0 s2c ev2c p2c (by decide) (by decide) (by decide) (by decide)
    have hA := hEPT 0 (by decide) (freshPoolToken "p2" "0xA" "A" 6) (by decide)
    have hB := hEPT 1 (by decide) (freshPoolToken "p2" "0xB" "B" 18) (by decide)
    have hgA : p2c.tokensList.getD 0 "" = "0xA" := rfl
    have hgB : p2c.tokensList.getD 1 "" = "0xB" := rfl
    have hpid : ev2c.poolId = "p2" := rfl
    rw [hgA, hpid] at hA
    rw [hgB, hpid] at hB
    have hamt0 := hamts 0 (by decide) (freshPoolToken "p2" "0xA" "A" 6) (by decide)
    have hamt1 := hamts 1 (by decide) (freshPoolToken "p2" "0xB" "B" 18) (by decide)
    refine ⟨r, hdisp.trans hrun, ?_, ?_, ⟨_, hje, rfl, ?_⟩⟩
    · rw [hA]
      simp only [Option.map_some, freshPoolToken]
      norm_num [tokenToDecimal, ev2c]
    · rw [hB]
      simp only [Option.map_some, freshPoolToken]
      norm_num [tokenToDecimal, ev2c]
    · have hlen2 : amts.length = 2 := by
        rw [hlenj]
        rfl
      obtain ⟨x, y, hxy⟩ := List.length_eq_two.mp hlen2
      subst hxy
      have h0 : x = some 1 := by
        have := hamt0
        simp only [List.getD_cons_zero] at this
        rw [this]
        norm_num [scaleDown, ev2c, freshPoolToken]
      have h1 : y = some 2 := by
        have := hamt1
        simp only [List.getD_cons_succ, List.getD_cons_zero] at this
        rw [this]
        norm_num [scaleDown, ev2c, freshPoolToken]
      rw [h0, h1]

/-- **C9** (amended): a Swap event with a zero raw `amountIn` or `amountOut`
on a known pool with both leg `PoolToken`s present still performs all the
swap bookkeeping — the `Swap` record, the pool / protocol / per-token swap
counters, the `PoolToken` balance updates and the token notional updates,
each exactly as for a non-zero swap — but the handler returns before
`updatePoolLiquidity`, so the liquidity/snapshot refresh of step 8 is skipped
along with the downstream pricing refresh: the snapshots are left untouched. -/
theorem c9_zero_amount_swap_skips_snapshot (env : Env) (s : Store) (ev : SwapEv)
    (pool : Pool) (ptI ptO : PoolToken) (tokI tokO : Token)
    (hp : s.pools ev.poolId = some pool)
    (hid : pool.id = ev.poolId)
    (hneq : ev.tokenIn ≠ ev.tokenOut)
    (hptIn : s.poolTokens (ev.poolId, ev.tokenIn) = some ptI)
    (hptOut : s.poolTokens (ev.poolId, ev.tokenOut) = some ptO)
    (htokIn : s.tokens ev.tokenIn = some tokI)
    (htokOut : s.tokens ev.tokenOut = some tokO)
    (hallpt : ∀ a ∈ pool.tokensList, a ≠ pool.address →
        (s.poolTokens (ev.poolId, a)).isSome)
    (hz : ev.amountIn = 0 ∨ ev.amountOut = 0) :
    ∃ r poolF, handleSwapEvent env s ev = .ok r
      ∧ r.store.pools ev.poolId = some poolF
      ∧ poolF.swapsCount = pool.swapsCount + 1
      ∧ r.store.balancer.totalSwapCount = s.balancer.totalSwapCount + 1
      ∧ r.store.swaps (ev.txHash, ev.logIndex) = some (swapRecordOf ev ptI ptO)
      ∧ r.store.poolTokens (ev.poolId, ev.tokenIn)
          = some { ptI with balance := ptI.balance + scaleDown ev.amountIn ptI.decimals }
      ∧ r.store.poolTokens (ev.poolId, ev.tokenOut)
          = some { ptO with balance := ptO.balance - scaleDown ev.amountOut ptO.decimals }
      ∧ r.store.tokens ev.tokenIn
          = some { tokI with
              totalSwapCount := tokI.totalSwapCount + 1
              totalBalanceNotional := tokI.totalBalanceNotional
                + scaleDown ev.amountIn ptI.decimals }
      ∧ r.store.tokens ev.tokenOut
          = some { tokO with
              totalSwapCount := tokO.totalSwapCount + 1
              totalBalanceNotional := tokO.totalBalanceNotional
                - scaleDown ev.amountOut ptO.decimals }
      ∧ r.store.snapshots = s.snapshots := by
  obtain ⟨r, poolF, hrun, _, _, hpools, _, _, _, _, _, hsc, _, _, hptI2, hptO2, _, htI2,
    htO2, _, hbal, hswap, hsnap, _⟩ :=
    handleSwapEvent_spec env s ev pool ptI ptO tokI tokO hp hid hneq hptIn hptOut
      htokIn htokOut hallpt
  refine ⟨r, poolF, hrun, hpools, hsc, hbal, hswap, hptI2, hptO2, htI2, htO2, ?_⟩
  apply hsnap
  rcases hz with h0 | h0
  · right
    simp [h0, scaleDown]
  · left
    simp [h0, scaleDown]

/-- **C9** witness: the amended theorem applied to the concrete zero-output
swap `ev9` on the concrete store `s9`. -/
theorem c9_zero_amount_swap_skips_snapshot_witness :
    ∃ r poolF, handleSwapEvent env0 s9 ev9 = .ok r
      ∧ r.store.pools ev9.poolId = some poolF
      ∧ poolF.swapsCount = p9.swapsCount + 1
      ∧ r.store.balancer.totalSwapCount = s9.balancer.totalSwapCount + 1
      ∧ r.store.swaps (ev9.txHash, ev9.logIndex)
          = some (swapRecordOf ev9 (freshPoolToken "p9" "0xa9" "A" 6)
              (freshPoolToken "p9" "0xb9" "B" 18))
      ∧ r.store.poolTokens (ev9.poolId, ev9.tokenIn)
          = some { freshPoolToken "p9" "0xa9" "A" 6 with
              balance := (freshPoolToken "p9" "0xa9" "A" 6).balance
                + scaleDown ev9.amountIn (freshPoolToken "p9" "0xa9" "A" 6).decimals }
      ∧ r.store.poolTokens (ev9.poolId, ev9.tokenOut)
          = some { freshPoolToken "p9" "0xb9" "B" 18 with
              balance := (freshPoolToken "p9" "0xb9" "B" 18).balance
                - scaleDown ev9.amountOut (freshPoolToken "p9" "0xb9" "B" 18).decimals }
      ∧ r.store.tokens ev9.tokenIn
          = some { freshToken "0xa9" "A" 6 with
              totalSwapCount := (freshToken "0xa9" "A" 6).totalSwapCount + 1
              totalBalanceNotional := (freshToken "0xa9" "A" 6).totalBalanceNotional
                + scaleDown ev9.amountIn (freshPoolToken "p9" "0xa9" "A" 6).decimals }
      ∧ r.store.tokens ev9.tokenOut
          = some { freshToken "0xb9" "B" 18 with
              totalSwapCount := (freshToken "0xb9" "B" 18).totalSwapCount + 1
              totalBalanceNotional := (freshToken "0xb9" "B" 18).totalBalanceNotional
                - scaleDown ev9.amountOut (freshPoolToken "p9" "0xb9" "B" 18).decimals }
      ∧ r.store.snapshots = s9.snapshots :=
  c9_zero_amount_swap_skips_snapshot env0 s9 ev9 p9
    (freshPoolToken "p9" "0xa9" "A" 6) (freshPoolToken "p9" "0xb9" "B" 18)
    (freshToken "0xa9" "A" 6) (freshToken "0xb9" "B" 18)
    (by decide) (by decide) (by decide) (by decide) (by decide) (by decide) (by decide)
    (by decide) (Or.inr (by decide))

/-- **C9** counterexample to the original claim: the concrete zero-output
swap `ev9` is fully processed (the protocol swap counter advances from 0
to 1), yet no `PoolSnapshot` exists afterwards for the swap's day — the
liquidity/snapshot refresh of step 8 was *not* triggered, because the handler
returns before `updatePoolLiquidity` when a transacted amount is zero. -/
theorem c9_counterexample :
    ∃ r, handleSwapEvent env0 s9 ev9 = .ok r
      ∧ ev9.amountOut = 0
      ∧ r.store.balancer.totalSwapCount = s9.balancer.totalSwapCount + 1
      ∧ r.store.snapshots (ev9.poolId, 86400) = none := by
  obtain ⟨r, poolF, hrun, _, _, _, _, _, _, _, _, _, _, _, _, _, _, _,
    _, _, hbal, _, hsnap, _⟩ :=
    handleSwapEvent_spec env0 s9 ev9 p9
      (freshPoolToken "p9" "0xa9" "A" 6) (freshPoolToken "p9" "0xb9" "B" 18)
      (freshToken "0xa9" "A" 6) (freshToken "0xb9" "B" 18)
      (by decide) (by decide) (by decide) (by decide) (by decide) (by decide) (by decide)
      (by decide)
  refine ⟨r, hrun, by decide, hbal, ?_⟩
  rw [hsnap (Or.inl (by simp [scaleDown, ev9]))]
  rfl

/-- **C5**: on a virtual-supply pool, a swap minting shares (`tokenOut` is
the pool's own share token, `totalShares` and the vault's `PoolShare` balance
increased by `toDecimal(amountOut, 18)`) followed by a swap burning the same
raw share amount (`tokenIn` is the share token, `amountIn = amountOut` of the
first swap) restores both `pool.totalShares` and the vault's `PoolShare`
balance to their values before the pair. -/
theorem c5_share_mint_burn_roundtrip (env : Env) (s : Store) (evM evB : SwapEv)
    (pool : Pool) (ptX ptS : PoolToken) (tokX tokS : Token)
    (hp : s.pools evM.poolId = some pool)
    (hid : pool.id = evM.poolId)
    (hvs : hasVirtualSupply pool = true)
    (hMout : evM.tokenOut = pool.address)
    (hneqM : evM.tokenIn ≠ evM.tokenOut)
    (hBpid : evB.poolId = evM.poolId)
    (hBin : evB.tokenIn = pool.address)
    (hBout : evB.tokenOut = evM.tokenIn)
    (hamt : evB.amountIn = evM.amountOut)
    (hptX : s.poolTokens (evM.poolId, evM.tokenIn) = some ptX)
    (hptS : s.poolTokens (evM.poolId, evM.tokenOut) = some ptS)
    (htokX : s.tokens evM.tokenIn = some tokX)
    (htokS : s.tokens evM.tokenOut = some tokS)
    (hallpt : ∀ a ∈ pool.tokensList, a ≠ pool.address →
        (s.poolTokens (evM.poolId, a)).isSome) :
    ∃ r1 r2 poolF2, handleSwapEvent env s evM = .ok r1
      ∧ handleSwapEvent env r1.store evB = .ok r2
      ∧ r2.store.pools evM.poolId = some poolF2
      ∧ poolF2.totalShares = pool.totalShares
      ∧ vaultShareBalance r2.store evM.poolId = vaultShareBalance s evM.poolId := by
  have hMin_ne : evM.tokenIn ≠ pool.address := fun h => hneqM (h.trans hMout.symm)
  obtain ⟨r1, poolF1, hrun1, _, _, hpools1, hF1id, hF1addr, hF1ptype, hF1tl, hF1hc,
    hF1sc, hF1ts, hF1vb, hF1ptI, hF1ptO, hF1ptfr, hF1tI, hF1tO, hF1tfr, hF1bal,
    hF1swap, hF1snap, hF1psfr⟩ :=
    handleSwapEvent_spec env s evM pool ptX ptS tokX tokS hp hid hneqM hptX hptS
      htokX htokS hallpt
  have hneqB : evB.tokenIn ≠ evB.tokenOut := by
    rw [hBin, hBout]
    exact fun h => hMin_ne h.symm
  have hp2 : r1.store.pools evB.poolId = some poolF1 := by
    rw [hBpid]
    exact hpools1
  have hid2 : poolF1.id = evB.poolId := by
    rw [hF1id, hid, hBpid]
  have hpt2I : r1.store.poolTokens (evB.poolId, evB.tokenIn)
      = some { ptS with balance := ptS.balance - scaleDown evM.amountOut ptS.decimals } := by
    rw [hBpid, hBin, ← hMout]
    exact hF1ptO
  have hpt2O : r1.store.poolTokens (evB.poolId, evB.tokenOut)
      = some { ptX with balance := ptX.balance + scaleDown evM.amountIn ptX.decimals } := by
    rw [hBpid, hBout]
    exact hF1ptI
  have htok2I : r1.store.tokens evB.tokenIn
      = some { tokS with
          totalSwapCount := tokS.totalSwapCount + 1
          totalBalanceNotional := tokS.totalBalanceNotional
            - scaleDown evM.amountOut ptS.decimals } := by
    rw [hBin, ← hMout]
    exact hF1tO
  have htok2O : r1.store.tokens evB.tokenOut
      = some { tokX with
          totalSwapCount := tokX.totalSwapCount + 1
          totalBalanceNotional := tokX.totalBalanceNotional
            + scaleDown evM.amountIn ptX.decimals } := by
    rw [hBout]
    exact hF1tI
  have hallpt2 : ∀ a ∈ poolF1.tokensList, a ≠ poolF1.address →
      (r1.store.poolTokens (evB.poolId, a)).isSome := by
    intro a ha hane
    rw [hF1tl] at ha
    rw [hF1addr] at hane
    rw [hBpid]
    by_cases haI : a = evM.tokenIn
    · rw [haI, hF1ptI]
      rfl
    · by_cases haO : a = evM.tokenOut
      · rw [haO, hF1ptO]
        rfl
      · rw [hF1ptfr (evM.poolId, a) (by simp [haI]) (by simp [haO])]
        exact hallpt a ha hane
  obtain ⟨r2, poolF2, hrun2, _, _, hpools2, _, _, _, _, _, _, hF2ts, hF2vb, _, _, _,
    _, _, _, _, _, _, _⟩ :=
    handleSwapEvent_spec env r1.store evB poolF1
      { ptS with balance := ptS.balance - scaleDown evM.amountOut ptS.decimals }
      { ptX with balance := ptX.balance + scaleDown evM.amountIn ptX.decimals }
      { tokS with
          totalSwapCount := tokS.totalSwapCount + 1
          totalBalanceNotional := tokS.totalBalanceNotional
            - scaleDown evM.amountOut ptS.decimals }
      { tokX with
          totalSwapCount := tokX.totalSwapCount + 1
          totalBalanceNotional := tokX.totalBalanceNotional
            + scaleDown evM.amountIn ptX.decimals }
      hp2 hid2 hneqB hpt2I hpt2O htok2I htok2O hallpt2
  have hvs1 : hasVirtualSupply poolF1 = true := by
    rw [hasVirtualSupply_congr poolF1 pool hF1ptype]
    exact hvs
  have hBinF1 : evB.tokenIn = poolF1.address := by
    rw [hBin, hF1addr]
  have hBoutF1 : evB.tokenOut ≠ poolF1.address := by
    rw [hBout, hF1addr]
    exact hMin_ne
  rw [if_neg (fun h => hMin_ne h.2), if_pos ⟨hvs, hMout⟩] at hF1ts hF1vb
  rw [if_pos ⟨hvs1, hBinF1⟩, if_neg (fun h => hBoutF1 h.2), hamt] at hF2ts hF2vb
  refine ⟨r1, r2, poolF2, hrun1, hrun2, ?_, ?_, ?_⟩
  · rw [← hBpid]
    exact hpools2
  · rw [hF2ts, hF1ts]
    ring
  · rw [← hBpid, hF2vb, hBpid, hF1vb]
    ring

/-- **C5** witness: the theorem applied to the concrete phantom pool `p5`,
minting and then burning two share units at 18 decimals. -/
theorem c5_share_mint_burn_roundtrip_witness :
    ∃ r1 r2 poolF2, handleSwapEvent env0 s5 ev5m = .ok r1
      ∧ handleSwapEvent env0 r1.store ev5b = .ok r2
      ∧ r2.store.pools ev5m.poolId = some poolF2
      ∧ poolF2.totalShares = p5.totalShares
      ∧ vaultShareBalance r2.store ev5m.poolId = vaultShareBalance s5 ev5m.poolId :=
  c5_share_mint_burn_roundtrip env0 s5 ev5m ev5b p5
    (freshPoolToken "p5" "0xa5" "A" 6) (freshPoolToken "p5" "0xbpt5" "BPT" 18)
    (freshToken "0xa5" "A" 6) (freshToken "0xbpt5" "BPT" 18)
    (by decide) (by decide) (by decide) (by decide) (by decide) (by decide) (by decide)
    (by decide) (by decide) (by decide) (by decide) (by decide) (by decide) (by decide)

/-- **C4** (amended): how the handlers treat events referencing missing
entities. A `PoolBalanceManaged` event on a missing pool logs a diagnostic
and changes nothing; on a present pool with a missing `PoolToken` it raises
an error instead of skipping. A `Swap` event on a missing pool logs and skips
the swap, but only after creating the `User` entity for the transaction
sender; on a present pool with a missing `PoolToken` it logs and skips the
swap bookkeeping, but the weight/amplification refresh and the virtual-supply
share movements it performed before the check remain saved. -/
theorem c4_missing_entity_handling :
    (∀ (env : Env) (s : Store) (ev : PoolBalanceManagedEv),
        s.pools ev.poolId = none →
        handleBalanceManage env s ev
          = .ok ⟨s, [], ["Pool not found in handleBalanceManage: " ++ ev.poolId]⟩)
    ∧ (∀ (env : Env) (s : Store) (ev : PoolBalanceManagedEv) (pool : Pool),
        s.pools ev.poolId = some pool →
        s.poolTokens (ev.poolId, ev.token) = none →
        handleBalanceManage env s ev = .error "poolToken not found")
    ∧ (∀ (env : Env) (s : Store) (ev : SwapEv),
        s.pools ev.poolId = none →
        handleSwapEvent env s ev
          = .ok ⟨createUserEntity s ev.txFrom, [],
              ["Pool not found in handleSwapEvent: " ++ ev.poolId]⟩)
    ∧ (∀ (env : Env) (s : Store) (ev : SwapEv) (pool : Pool),
        s.pools ev.poolId = some pool →
        s.poolTokens (ev.poolId, ev.tokenIn) = none →
        handleSwapEvent env s ev
          = .ok ⟨(virtualSupplyAdjust
              (weightAmpRefresh env (createUserEntity s ev.txFrom) pool ev).1
              (weightAmpRefresh env (createUserEntity s ev.txFrom) pool ev).2 ev).1, [],
              ["PoolToken not found in handleSwapEvent: (tokenIn: " ++ ev.tokenIn
                ++ "), (tokenOut: " ++ ev.tokenOut ++ ")"]⟩) := by
  refine ⟨?_, ?_, ?_, ?_⟩
  · intro env s ev h
    unfold handleBalanceManage
    simp only [h]
  · intro env s ev pool hpool hpt
    unfold handleBalanceManage
    simp only [hpool, loadPoolToken, hpt]
  · intro env s ev h
    unfold handleSwapEvent
    simp only [createUserEntity_pools, h]
  · intro env s ev pool hpool hpt
    obtain ⟨amp2, hsp1_2, hsp1_pt, hsp1_t, hsp1_ps, hsp1_u, hsp1_je, hsp1_sw, hsp1_sn,
      hsp1_b, hsp1_po, hsp1_pid⟩ :=
      weightAmpRefresh_spec env (createUserEntity s ev.txFrom) pool ev
    obtain ⟨hV2, hVp, hVpt, hVt, hVje, hVsw, hVsn, hVb, hVbal, hVother⟩ :=
      virtualSupplyAdjust_spec
        (weightAmpRefresh env (createUserEntity s ev.txFrom) pool ev).1
        (weightAmpRefresh env (createUserEntity s ev.txFrom) pool ev).2 ev
    have hS0p : (createUserEntity s ev.txFrom).pools ev.poolId = some pool := by
      rw [createUserEntity_pools]
      exact hpool
    have hload_in : loadPoolToken (virtualSupplyAdjust
        (weightAmpRefresh env (createUserEntity s ev.txFrom) pool ev).1
        (weightAmpRefresh env (createUserEntity s ev.txFrom) pool ev).2 ev).1
        ev.poolId ev.tokenIn = none := by
      unfold loadPoolToken
      rw [hVpt, hsp1_pt, createUserEntity_poolTokens]
      exact hpt
    unfold handleSwapEvent
    simp only [hS0p, hload_in]

/-- **C4** counterexample to the original claim: a `PoolBalanceManaged`
event on pool `p4` (which has no `PoolToken` for the referenced token)
*raises an error* instead of skipping; and a `Swap` event on a pool missing
from the empty store *creates the `User` entity* for the sender even though
the event is skipped. -/
theorem c4_counterexample :
    handleBalanceManage env0 s4 ev4m = .error "poolToken not found"
    ∧ (∃ r, handleSwapEvent env0 emptyStore ev4s = .ok r
        ∧ r.store.users "0xu4" = true
        ∧ emptyStore.users "0xu4" = false) := by
  constructor
  · rfl
  · exact ⟨⟨createUserEntity emptyStore "0xu4", [],
      ["Pool not found in handleSwapEvent: p4"]⟩, rfl, rfl, rfl⟩

theorem saveToken_tokens_self (s : Store) (a : Addr) (t : Token) :
    (saveToken s a t).tokens a = some t := by
  simp [saveToken]

/-- **C8** (amended): on an oracle answer-update, for a resolved tracked
token other than the designated precious-metal token: if the oracle records
both a divisor and a *nonzero* decimals value, `latestFXPrice
= toDecimal(answer * 10^decimals / divisor, 8)`; otherwise — no oracle
entity, no divisor, no decimals, or decimals recorded as zero (a falsy
value) — `latestFXPrice = toDecimal(answer, 8)`. In particular an oracle
with `decimals = 10` and no divisor receiving `answer = 123456789` sets the
token's `latestFXPrice` to `1.23456789`, and a resolved address with no
`Token` entity is skipped with a diagnostic rather than an error. -/
theorem c8_oracle_answer_normalization :
    (∀ (o : FXOracle) (answer : ℤ) (s : Store) (a : Addr) (token : Token)
        (divisor : ℤ) (dec : ℕ),
        a ≠ XAU_TOKEN_ADDRESS → s.tokens a = some token →
        o.divisor = some divisor → o.decimals = some dec → dec ≠ 0 →
        ∃ t2, (fxUpdateStep (some o) answer s a).1.tokens a = some t2
          ∧ t2.latestFXPrice
              = some (scaleDown (Int.tdiv (answer * (10 : ℤ) ^ dec) divisor) 8))
    ∧ (∀ (o : Option FXOracle) (answer : ℤ) (s : Store) (a : Addr) (token : Token),
        a ≠ XAU_TOKEN_ADDRESS → s.tokens a = some token →
        (o = none ∨ ∃ o2, o = some o2
          ∧ (o2.divisor = none ∨ o2.decimals = none ∨ o2.decimals = some 0)) →
        ∃ t2, (fxUpdateStep o answer s a).1.tokens a = some t2
          ∧ t2.latestFXPrice = some (scaleDown answer 8))
    ∧ (∃ t2, (handleAnswerUpdated env0 s8s ev8).1.tokens "0xf8t" = some t2
        ∧ t2.latestFXPrice = some ((123456789 : ℚ) / 100000000))
    ∧ (∀ (o : Option FXOracle) (answer : ℤ) (s : Store) (a : Addr),
        s.tokens a = none →
        fxUpdateStep o answer s a
          = (s, ["Token with address " ++ a ++ " not found"])) := by
  refine ⟨?_, ?_, ?_, ?_⟩
  · intro o answer s a token divisor dec haX htok hdiv hdec hdne
    unfold fxUpdateStep
    simp only [htok, hdiv, hdec, if_neg haX, if_pos hdne]
    by_cases h8 : token.fxOracleDecimals = none ∨ token.fxOracleDecimals = some 0
    · rw [if_pos h8]
      exact ⟨_, saveToken_tokens_self _ _ _, rfl⟩
    · rw [if_neg h8]
      exact ⟨_, saveToken_tokens_self _ _ _, rfl⟩
  · intro o answer s a token haX htok hcase
    unfold fxUpdateStep
    simp only [htok, if_neg haX]
    rcases hcase with hnone | ⟨o2, ho2, hsub⟩
    · subst hnone
      by_cases h8 : token.fxOracleDecimals = none ∨ token.fxOracleDecimals = some 0
      · rw [if_pos h8]
        exact ⟨_, saveToken_tokens_self _ _ _, rfl⟩
      · rw [if_neg h8]
        exact ⟨_, saveToken_tokens_self _ _ _, rfl⟩
    · subst ho2
      rcases hsub with hdv | hdd | hd0
      · cases hde : o2.decimals with
        | none =>
          simp only [hdv, hde]
          by_cases h8 : token.fxOracleDecimals = none ∨ token.fxOracleDecimals = some 0
          · rw [if_pos h8]
            exact ⟨_, saveToken_tokens_self _ _ _, rfl⟩
          · rw [if_neg h8]
            exact ⟨_, saveToken_tokens_self _ _ _, rfl⟩
        | some dd =>
          simp only [hdv, hde]
          by_cases h8 : token.fxOracleDecimals = none ∨ token.fxOracleDecimals = some 0
          · rw [if_pos h8]
            exact ⟨_, saveToken_tokens_self _ _ _, rfl⟩
          · rw [if_neg h8]
            exact ⟨_, saveToken_tokens_self _ _ _, rfl⟩
      · cases hdv : o2.divisor with
        | none =>
          simp only [hdv, hdd]
          by_cases h8 : token.fxOracleDecimals = none ∨ token.fxOracleDecimals = some 0
          · rw [if_pos h8]
            exact ⟨_, saveToken_tokens_self _ _ _, rfl⟩
          · rw [if_neg h8]
            exact ⟨_, saveToken_tokens_self _ _ _, rfl⟩
        | some dv =>
          simp only [hdv, hdd]
          by_cases h8 : token.fxOracleDecimals = none ∨ token.fxOracleDecimals = some 0
          · rw [if_pos h8]
            exact ⟨_, saveToken_tokens_self _ _ _, rfl⟩
          · rw [if_neg h8]
            exact ⟨_, saveToken_tokens_self _ _ _, rfl⟩
      · cases hdv : o2.divisor with
        | none =>
          simp only [hdv, hd0]
          by_cases h8 : token.fxOracleDecimals = none ∨ token.fxOracleDecimals = some 0
          · rw [if_pos h8]
            exact ⟨_, saveToken_tokens_self _ _ _, rfl⟩
          · rw [if_neg h8]
            exact ⟨_, saveToken_tokens_self _ _ _, rfl⟩
        | some dv =>
          simp only [hdv, hd0, if_neg (by simp : ¬(0 : ℕ) ≠ 0)]
          by_cases h8 : token.fxOracleDecimals = none ∨ token.fxOracleDecimals = some 0
          · rw [if_pos h8]
            exact ⟨_, saveToken_tokens_self _ _ _, rfl⟩
          · rw [if_neg h8]
            exact ⟨_, saveToken_tokens_self _ _ _, rfl⟩
  · have hstep : (handleAnswerUpdated env0 s8s ev8).1.tokens "0xf8t"
        = some { freshToken "0xf8t" "F8T" 18 with
            fxOracleDecimals := some 8
            latestFXPrice := some (scaleDown (123456789 : ℤ) 8) } := by rfl
    refine ⟨_, hstep, ?_⟩
    norm_num [scaleDown]
  · intro o answer s a h
    unfold fxUpdateStep
    simp only [h]

/-- **C8** counterexample to the original claim: an oracle that records a
divisor (`2`) and records decimals as zero takes the *plain* normalization
branch (`toDecimal(answer, 8)`), not the claimed rescale
`toDecimal(answer * 10^0 / 2, 8)` — graph-ts truthiness treats the recorded
zero like an absent value. -/
theorem c8_counterexample :
    oracle8.divisor = some 2 ∧ oracle8.decimals = some 0
    ∧ (∃ t2, (fxUpdateStep (some oracle8) 10 s8 "0xf8").1.tokens "0xf8" = some t2
        ∧ t2.latestFXPrice = some (scaleDown 10 8)
        ∧ t2.latestFXPrice
            ≠ some (scaleDown (Int.tdiv (10 * (10 : ℤ) ^ (0 : ℕ)) 2) 8)) := by
  have hstep : (fxUpdateStep (some oracle8) 10 s8 "0xf8").1.tokens "0xf8"
      = some { freshToken "0xf8" "F8" 18 with
          fxOracleDecimals := some 8
          latestFXPrice := some (scaleDown (10 : ℤ) 8) } := by rfl
  refine ⟨rfl, rfl, _, hstep, rfl, ?_⟩
  have h5 : Int.tdiv (10 * (10 : ℤ) ^ (0 : ℕ)) 2 = 5 := by decide
  rw [h5]
  simp only [ne_eq, Option.some.injEq, scaleDown]
  norm_num

end BalancerSubgraph
